import Mathlib

/-!
Shallow embedding of the LatentContext-MCP memory engine (TypeScript sources
under `src/`), written to settle the claims C1..C10 about the natural-language
specification of the repository.

Conventions of the embedding:
* SQL tables become Lean lists in insertion (rowid) order; `INSERT` appends,
  `DELETE ... WHERE` filters, `UPDATE ... WHERE` maps.
* ISO-8601 timestamps become `Nat` logical clocks (ISO strings compare
  lexicographically exactly as the instants they denote compare).
* `REAL` confidences and scores become `ℚ` (all arithmetic performed by the
  program on them is exact decimal arithmetic: `* 0.5`, weighted sums of
  decimal literals, Jaccard ratios).
* `uuidv4()` becomes an explicitly passed fresh identifier (graph layer) or a
  deterministic counter-generated identifier (memory-manager layer).
* External collaborators that the spec itself scopes out (the `js-tiktoken`
  tokenizer, the embedding model, the JS regex engine, `Math.exp`) are
  parameters of the embedding, collected in `ExtParams`.
* JSON-string columns that no claim inspects (`metadata`) are omitted;
  `properties` columns are kept as opaque strings; `source_ids` (a JSON array
  of id strings) is kept as `List String`.
-/

/- Core marks the `Rat` arithmetic `@[irreducible]`, which stops `decide`
from evaluating the embedding on concrete inputs; the kernel itself reduces
these definitions fine, so restoring default reducibility is sound and lets
the concrete runs be checked by `decide`. -/
set_option allowUnsafeReducibility true
attribute [semireducible] Rat.mul Rat.add Rat.sub Rat.neg Rat.div Rat.inv Rat.blt
  Rat.ofScientific

namespace LatentContext

/-- ASCII-only lower-casing, mirroring SQLite `COLLATE NOCASE` (which folds
only `A`-`Z`) used by `getEntityByLabel` / `searchEntities` in database.ts. -/
def asciiLowerChar (c : Char) : Char :=
  if 'A' ≤ c ∧ c ≤ 'Z' then Char.ofNat (c.toNat + 32) else c

/-- ASCII case folding of a string (SQLite NOCASE semantics). -/
def asciiLower (s : String) : String :=
  String.mk (s.data.map asciiLowerChar)

/-- JS `Array.prototype.join(sep)` / `.join("\n")`: empty list gives `""`,
singleton gives the element, otherwise elements interleaved with `sep`. -/
def joinSep (sep : String) : List String → String
  | [] => ""
  | [x] => x
  | x :: y :: ys => x ++ sep ++ joinSep sep (y :: ys)

/-- Accumulator loop for `jsWords`: collects the maximal whitespace-free
runs of a character list (current run is kept reversed). -/
def jsWordsAux : List Char → List String → List Char → List String
  | cur, acc, [] => if cur.isEmpty then acc else acc ++ [String.mk cur.reverse]
  | cur, acc, c :: cs =>
    if c.isWhitespace then
      if cur.isEmpty then jsWordsAux [] acc cs
      else jsWordsAux [] (acc ++ [String.mk cur.reverse]) cs
    else jsWordsAux (c :: cur) acc cs

/-- The maximal whitespace-separated runs of a string — what JS
`s.split(/\s+/)` produces once empty fragments are discarded. -/
def jsWords (s : String) : List String :=
  jsWordsAux [] [] s.data

/-- One insertion step of the stable sort: the new element goes after every
already-placed element it does not strictly precede. -/
def insertBy (le : α → α → Bool) (x : α) : List α → List α
  | [] => [x]
  | y :: ys => if le y x then y :: insertBy le x ys else x :: y :: ys

/-- JS `Array.prototype.sort(cmp)` (ECMA-262 mandates a stable sort),
embedded as an insertion-based stable sort: elements are inserted in arrival
order, each after the already-placed elements that may precede it, so equal
elements keep their original order. `le a b` means a may come before b. -/
def stableSortBy (le : α → α → Bool) (l : List α) : List α :=
  l.foldl (fun acc x => insertBy le x acc) []

/-- JS `[...new Set(xs)]`: removes duplicates keeping the first occurrence of
each element, preserving order. -/
def jsSetDedup (xs : List String) : List String :=
  xs.foldl (fun acc a => if a ∈ acc then acc else acc ++ [a]) []

/-- JS `content.trim().split(/\s+/).length` as computed by the memory_store
handler in server.ts: trimming strips only boundary whitespace, so on a
whitespace-only or empty string the split yields `[""]` (length 1), and
otherwise exactly the maximal non-whitespace runs of the original string. -/
def jsWordCount (s : String) : Nat :=
  if (jsWords s).length = 0 then 1 else (jsWords s).length

/-- Row of the `entities` table (database.ts `EntityRow`). -/
structure EntityRow where
  id : String
  label : String
  entityType : String
  properties : String
  createdAt : Nat
  updatedAt : Nat
  confidence : ℚ
  sourceSummaryId : Option String
  deriving DecidableEq, Repr

/-- Row of the `relations` table (database.ts `RelationRow`). -/
structure RelationRow where
  id : String
  subjectId : String
  predicate : String
  objectId : String
  properties : String
  temporalStart : Option Nat
  temporalEnd : Option Nat
  confidence : ℚ
  sourceSummaryId : Option String
  deriving DecidableEq, Repr

/-- Row of the `summaries` table (database.ts `SummaryRow`); `source_ids` is
stored as a JSON array of strings, modelled directly as `List String`;
the `metadata` JSON column is omitted (no claim inspects it). -/
structure SummaryRow where
  id : String
  tier : Nat
  content : String
  tokenCount : Nat
  createdAt : Nat
  updatedAt : Nat
  sessionId : Option String
  sourceIds : List String
  deriving DecidableEq, Repr

/-- Row of the `vectors` table (database.ts `VectorRow`); the float32 blob is
kept as the exact vector it encodes; `dimensions` and `metadata` are omitted
(no claim inspects them). -/
structure VectorRec where
  id : String
  sourceId : String
  sourceType : String
  contentPreview : String
  embedding : List ℚ
  confidence : ℚ
  createdAt : Nat
  deriving DecidableEq, Repr

/-- Row of the `access_log` table (the AUTOINCREMENT row id is the list
position). -/
structure AccessRec where
  memoryId : String
  memoryType : String
  accessedAt : Nat
  deriving DecidableEq, Repr

/-- In-memory Tier-0 record (memory-manager.ts `WorkingMemoryEntry`,
session-aware version). -/
structure WorkingEntry where
  id : String
  content : String
  tokens : Nat
  timestamp : Nat
  sessionId : Option String
  deriving DecidableEq, Repr

/-- The entity/relation part of the durable store, acted on by
knowledge-graph.ts and the relation/entity operations of database.ts. -/
structure GraphDb where
  entities : List EntityRow
  relations : List RelationRow
  deriving DecidableEq, Repr

/-- database.ts `getEntityByLabel`: `SELECT * FROM entities WHERE label = ?
COLLATE NOCASE` — first row in scan order matching case-insensitively. -/
def getEntityByLabel (db : GraphDb) (label : String) : Option EntityRow :=
  db.entities.find? (fun e => asciiLower e.label == asciiLower label)

/-- database.ts `getEntityById`. -/
def getEntityById (db : GraphDb) (id : String) : Option EntityRow :=
  db.entities.find? (fun e => e.id == id)

/-- database.ts `upsertEntity`: update every field but `id`/`created_at` when
the id exists, otherwise insert a fresh row (`insertEntity`). -/
def upsertEntity (db : GraphDb) (id label entityType properties : String)
    (confidence : ℚ) (sourceSummaryId : Option String) (ts : Nat) : GraphDb :=
  match getEntityById db id with
  | some _ =>
    { db with entities := db.entities.map (fun e =>
        if e.id = id then
          { e with label := label, entityType := entityType,
                   properties := properties, updatedAt := ts,
                   confidence := confidence,
                   sourceSummaryId := sourceSummaryId }
        else e) }
  | none =>
    { db with entities := db.entities ++
        [{ id := id, label := label, entityType := entityType,
           properties := properties, createdAt := ts, updatedAt := ts,
           confidence := confidence, sourceSummaryId := sourceSummaryId }] }

/-- knowledge-graph.ts `ensureEntity`: case-insensitive label lookup; on a hit
update (via `upsertEntity`) only when the incoming confidence strictly exceeds
the stored one, and return the existing id; on a miss insert with a fresh id.
`freshId` stands for the `uuidv4()` minted at the insert site. -/
def ensureEntity (db : GraphDb) (label entityType properties : String)
    (confidence : ℚ) (freshId : String) (ts : Nat) : String × GraphDb :=
  match getEntityByLabel db label with
  | some existing =>
    if confidence > existing.confidence then
      (existing.id, upsertEntity db existing.id label entityType properties confidence none ts)
    else
      (existing.id, db)
  | none =>
    (freshId, upsertEntity db freshId label entityType properties confidence none ts)

/-- Whether a relation row is active (no `temporal_end`) for the given
subject/predicate pair — the row predicate of the `WHERE subject_id = ? AND
predicate = ? AND temporal_end IS NULL` queries. -/
def isActiveFor (subjectId predicate : String) (r : RelationRow) : Bool :=
  r.subjectId == subjectId && r.predicate == predicate && r.temporalEnd == none

/-- database.ts `upsertRelation`'s active-relation probe: `SELECT * FROM
relations WHERE subject_id = ? AND predicate = ? AND temporal_end IS NULL`
taken as `queryOne` (first row in scan order). -/
def findActiveRelation (db : GraphDb) (subjectId predicate : String) :
    Option RelationRow :=
  db.relations.find? (isActiveFor subjectId predicate)

/-- The row update of `upsertRelation`'s supersession `UPDATE ... SET
temporal_end = ?, confidence = confidence * 0.5 WHERE id = ?`. -/
def endUpdate (existingId : String) (ts : Nat) (r : RelationRow) : RelationRow :=
  if r.id = existingId then
    { r with temporalEnd := some ts, confidence := r.confidence * (1/2) }
  else r

/-- The first half of database.ts `upsertRelation`: when an active relation
with the same subject and predicate exists and points at a different object,
mark it ended at `ts` and halve its confidence. -/
def supersedePass (db : GraphDb) (subjectId predicate objectId : String)
    (ts : Nat) : List RelationRow :=
  match findActiveRelation db subjectId predicate with
  | some existing =>
    if existing.objectId ≠ objectId then db.relations.map (endUpdate existing.id ts)
    else db.relations
  | none => db.relations

/-- The row `upsertRelation` inserts (active unless `temporalEnd` is given;
`temporal_start` falls back to `ts` when absent, mirroring
`temporalStart || ts`). -/
def newRelationRow (id subjectId predicate objectId properties : String)
    (confidence : ℚ) (temporalStart temporalEnd : Option Nat)
    (sourceSummaryId : Option String) (ts : Nat) : RelationRow :=
  { id := id, subjectId := subjectId, predicate := predicate,
    objectId := objectId, properties := properties,
    temporalStart := some (temporalStart.getD ts), temporalEnd := temporalEnd,
    confidence := confidence, sourceSummaryId := sourceSummaryId }

/-- database.ts `upsertRelation`: the supersession pass, then DELETE any row
with the new id, then INSERT the new relation. -/
def upsertRelation (db : GraphDb) (id subjectId predicate objectId : String)
    (properties : String) (confidence : ℚ)
    (temporalStart temporalEnd : Option Nat) (sourceSummaryId : Option String)
    (ts : Nat) : GraphDb :=
  { db with relations :=
      (supersedePass db subjectId predicate objectId ts).filter (fun r => r.id ≠ id) ++
        [newRelationRow id subjectId predicate objectId properties confidence
          temporalStart temporalEnd sourceSummaryId ts] }

/-- database.ts `getRelationsBySubject`: active relations with the given
subject, ordered by confidence descending (stable). -/
def getRelationsBySubject (db : GraphDb) (subjectId : String) : List RelationRow :=
  stableSortBy (fun a b => decide (b.confidence ≤ a.confidence))
    (db.relations.filter (fun r => r.subjectId == subjectId && r.temporalEnd == none))

/-- database.ts `getRelationsByObject`: active relations with the given
object, ordered by confidence descending (stable). -/
def getRelationsByObject (db : GraphDb) (objectId : String) : List RelationRow :=
  stableSortBy (fun a b => decide (b.confidence ≤ a.confidence))
    (db.relations.filter (fun r => r.objectId == objectId && r.temporalEnd == none))

/-- database.ts `deleteRelation`. -/
def deleteRelation (db : GraphDb) (id : String) : GraphDb :=
  { db with relations := db.relations.filter (fun r => r.id ≠ id) }

/-- database.ts `deleteEntity`. -/
def deleteEntity (db : GraphDb) (id : String) : GraphDb :=
  { db with entities := db.entities.filter (fun e => e.id ≠ id) }

/-- knowledge-graph.ts `storeFact`: ensure both endpoint entities (always with
empty `{}` properties), then upsert a relation under a fresh id.
`subjFresh`/`objFresh`/`relId` stand for the `uuidv4()` calls. -/
def storeFact (db : GraphDb) (subjectLabel predicate objectLabel : String)
    (subjectType objectType : String) (confidence : ℚ) (properties : String)
    (subjFresh objFresh relId : String) (ts : Nat) : String × GraphDb :=
  let (subjectId, db1) := ensureEntity db subjectLabel subjectType "\x7b\x7d" confidence subjFresh ts
  let (objectId, db2) := ensureEntity db1 objectLabel objectType "\x7b\x7d" confidence objFresh ts
  (relId, upsertRelation db2 relId subjectId predicate objectId properties confidence none none none ts)

/-- knowledge-graph.ts `removeEntity`: case-insensitive lookup; on a miss
return false unchanged; on a hit delete every relation returned by
`getRelationsBySubject`/`getRelationsByObject` (note: those queries select
only rows with `temporal_end IS NULL`), then delete the entity row. -/
def removeEntity (db : GraphDb) (label : String) : Bool × GraphDb :=
  match getEntityByLabel db label with
  | none => (false, db)
  | some entity =>
    let toDelete := getRelationsBySubject db entity.id ++ getRelationsByObject db entity.id
    let db1 := toDelete.foldl (fun acc r => deleteRelation acc r.id) db
    (true, deleteEntity db1 entity.id)

/-- knowledge-graph.ts `deprecateRelation`: set the relation's confidence to
`newConfidence` and mark it ended at `ts`. -/
def deprecateRelation (db : GraphDb) (relationId : String) (newConfidence : ℚ)
    (ts : Nat) : GraphDb :=
  { db with relations := db.relations.map (fun r =>
      if r.id = relationId then
        { r with confidence := newConfidence, temporalEnd := some ts }
      else r) }

/-- The active-relation uniqueness invariant of spec section 3: at most one
active relation per `(subject_id, predicate)` pair. -/
def ActiveUniq (db : GraphDb) : Prop :=
  ∀ s p, db.relations.countP (isActiveFor s p) ≤ 1

/-- External collaborators the spec scopes out (section 1): the tokenizer, the
embedder and its cosine, `Math.exp`-based recency, the JS regex engine
(capitalized-run and quoted-substring matches of
context-assembler.ts `extractEntityMentions`, and the ordered predicate-regex
scan of memory-manager.ts `inferPredicate`). Each field is the exact function
the TypeScript code calls out to; theorems quantify over them and concrete
runs instantiate them. -/
structure ExtParams where
  /-- token-counter.ts `countTokens` (js-tiktoken `cl100k_base`). -/
  countTokens : String → Nat
  /-- token-counter.ts `truncateToTokenBudget` (token-prefix truncation,
  returns the truncated text and its token count). -/
  truncate : String → Nat → String × Nat
  /-- embeddings.ts `embed` for the query text. -/
  embedQ : String → List ℚ
  /-- embeddings.ts `cosineSimilarity`. -/
  sim : List ℚ → List ℚ → ℚ
  /-- context-assembler.ts `recencyScore` as a function of the current clock
  and the record's `created_at` (`exp(-ageHours/168)` in the source). -/
  recency : Nat → Nat → ℚ
  /-- `query.match(/\b[A-Z][a-zA-Z]*(?:\s+[A-Z][a-zA-Z]*)*/g) || []`. -/
  matchCapitalized : String → List String
  /-- `query.match(/"([^"]+)"/g) || []` (matches still carry their quotes). -/
  matchQuoted : String → List String
  /-- memory-manager.ts `inferPredicate`: first matching pattern's canonical
  predicate, `"related_to"` when nothing matches. -/
  inferPredicate : String → String

/-- The configuration fields the claims exercise, with the config.ts
`DEFAULT_CONFIG` values. -/
structure Config where
  tier1Session : Nat := 500
  tier2Epoch : Nat := 300
  tier3Core : Nat := 200
  defaultRetrieveBudget : Nat := 3000
  tier0OverflowThreshold : Nat := 2500
  tier1ConsolidationCount : Nat := 10
  semanticWeight : ℚ := 0.4
  recencyWeight : ℚ := 0.3
  priorityWeight : ℚ := 0.2
  frequencyWeight : ℚ := 0.1
  dedupSimilarityThreshold : ℚ := 0.85
  deriving Repr

/-- The default configuration (config.ts `DEFAULT_CONFIG`). -/
def defaultConfig : Config := {}

/-- The whole engine state the claims touch: the in-memory working buffer and
module-level session id, plus the durable tables (the `sessions` table is not
modelled — no claim reads it). `ctr` drives the deterministic stand-in for
`uuidv4()`. -/
structure MemState where
  working : List WorkingEntry
  summaries : List SummaryRow
  graph : GraphDb
  vectors : List VectorRec
  accessLog : List AccessRec
  currentSession : Option String
  ctr : Nat
  deriving DecidableEq, Repr

/-- Deterministic stand-in for `uuidv4()`: the `n`-th id minted. -/
def genId (n : Nat) : String := "uuid-" ++ toString n

/-- The empty engine state. -/
def initState : MemState :=
  { working := [], summaries := [], graph := ⟨[], []⟩, vectors := [],
    accessLog := [], currentSession := none, ctr := 0 }

/-- database.ts `logAccess`. -/
def logAccess (st : MemState) (memoryId memoryType : String) (ts : Nat) : MemState :=
  { st with accessLog := st.accessLog ++ [{ memoryId := memoryId, memoryType := memoryType, accessedAt := ts }] }

/-- database.ts `getAccessFrequency`: `SELECT COUNT(*) FROM access_log WHERE
memory_id = ?`. -/
def getAccessFrequency (st : MemState) (memoryId : String) : Nat :=
  st.accessLog.countP (fun a => a.memoryId == memoryId)

/-- vector-store.ts `addToVectorStore`: embed the content, mint an id, store a
≤200-char preview (with `"..."` when truncated); `insertVector` first deletes
any row with the same id (upsert on the id), then inserts. -/
def addToVectorStore (P : ExtParams) (st : MemState) (content sourceId sourceType : String)
    (confidence : ℚ) (ts : Nat) : String × MemState :=
  let embedding := P.embedQ content
  let id := genId st.ctr
  let preview := if content.length > 200 then content.take 200 ++ "..." else content
  (id, { st with
         ctr := st.ctr + 1
         vectors := (st.vectors.filter (fun v => v.id ≠ id)) ++
           [{ id := id, sourceId := sourceId, sourceType := sourceType,
              contentPreview := preview, embedding := embedding,
              confidence := confidence, createdAt := ts }] })

/-- vector-store.ts `removeVectorsBySource` / database.ts
`deleteVectorsBySourceId`. -/
def removeVectorsBySource (st : MemState) (sourceId : String) : MemState :=
  { st with vectors := st.vectors.filter (fun v => v.sourceId ≠ sourceId) }

/-- database.ts `insertSummary` (timestamps filled from the clock). -/
def insertSummary (st : MemState) (id : String) (tier : Nat) (content : String)
    (tokenCount : Nat) (sessionId : Option String) (sourceIds : List String)
    (ts : Nat) : MemState :=
  { st with summaries := st.summaries ++
      [{ id := id, tier := tier, content := content, tokenCount := tokenCount,
         createdAt := ts, updatedAt := ts, sessionId := sessionId,
         sourceIds := sourceIds }] }

/-- database.ts `getSummaryById`. -/
def getSummaryById (st : MemState) (id : String) : Option SummaryRow :=
  st.summaries.find? (fun s => s.id == id)

/-- database.ts `updateSummaryContent`. -/
def updateSummaryContent (st : MemState) (id content : String) (tokenCount : Nat)
    (ts : Nat) : MemState :=
  { st with summaries := st.summaries.map (fun s =>
      if s.id = id then { s with content := content, tokenCount := tokenCount, updatedAt := ts }
      else s) }

/-- database.ts `deleteSummary`. -/
def deleteSummary (st : MemState) (id : String) : MemState :=
  { st with summaries := st.summaries.filter (fun s => s.id ≠ id) }

/-- database.ts `getSummariesByTier`: rows at the tier, newest first
(`ORDER BY created_at DESC`, stable). -/
def getSummariesByTier (st : MemState) (tier : Nat) : List SummaryRow :=
  stableSortBy (fun a b => decide (b.createdAt ≤ a.createdAt))
    (st.summaries.filter (fun s => s.tier == tier))

/-- Modelled from the spec: `getSummariesByTierAndSession` belongs to the
repository database module whose session-aware revision is not included under
`src/` (only its import in context-assembler.ts is). Per spec section 4.8
item 5 it returns the current session Tier-1 summaries; it mirrors the sibling
`getSummariesByTier` (filter, newest first). -/
def getSummariesByTierAndSession (st : MemState) (tier : Nat) (sessionId : String) :
    List SummaryRow :=
  stableSortBy (fun a b => decide (b.createdAt ≤ a.createdAt))
    (st.summaries.filter (fun s => s.tier == tier && s.sessionId == some sessionId))

/-- Modelled from the spec: `getSummariesByTierExcludingSession` belongs to
the same missing database revision; per spec section 4.8 item 5 it returns
past-session Tier-1 summaries, i.e. rows at the tier that are not tagged with
the current session, newest first. -/
def getSummariesByTierExcludingSession (st : MemState) (tier : Nat) (sessionId : String) :
    List SummaryRow :=
  stableSortBy (fun a b => decide (b.createdAt ≤ a.createdAt))
    (st.summaries.filter (fun s => s.tier == tier && s.sessionId != some sessionId))

/-- memory-manager.ts: the entries the session-aware code operates on — the
current session's entries when a session is active, all entries otherwise
(`getSessionWorkingMemoryTokens` / the `sessionEntries` filters). -/
def sessionEntries (st : MemState) : List WorkingEntry :=
  match st.currentSession with
  | some sid => st.working.filter (fun e => e.sessionId == some sid)
  | none => st.working

/-- Total tokens of a list of working entries (`reduce((sum, e) => sum + e.tokens, 0)`). -/
def workingTokens (l : List WorkingEntry) : Nat :=
  (l.map (·.tokens)).sum

/-- memory-manager.ts `getWorkingMemory` (session-aware): the current
session's entries joined by `"\n"`, `""` when there are none. -/
def getWorkingMemory (st : MemState) : String :=
  joinSep "\n" ((sessionEntries st).map (·.content))

/-- memory-manager.ts `addToWorkingMemory`: mint an id, count tokens, append
an entry tagged with the current session. -/
def addToWorkingMemory (P : ExtParams) (st : MemState) (content : String) (ts : Nat) :
    String × MemState :=
  let id := genId st.ctr
  (id, { st with
         ctr := st.ctr + 1
         working := st.working ++
           [{ id := id, content := content, tokens := P.countTokens content,
              timestamp := ts, sessionId := st.currentSession }] })

/-- memory-manager.ts `getCoreMemory`: Tier-3 contents joined by `"\n"`, a
fixed sentinel when there are none. -/
def getCoreMemory (st : MemState) : String :=
  let tier3 := getSummariesByTier st 3
  if tier3 = [] then "No core memories stored yet."
  else joinSep "\n" (tier3.map (·.content))

/-- knowledge-graph.ts `ensureEntity` lifted to the engine state: `uuidv4()`
is consumed only when the label is absent (the only call site of the fresh
id). -/
def ensureEntityS (st : MemState) (label entityType properties : String)
    (confidence : ℚ) (ts : Nat) : String × MemState :=
  let (id, g) := ensureEntity st.graph label entityType properties confidence (genId st.ctr) ts
  (id, { st with
         graph := g
         ctr := if (getEntityByLabel st.graph label).isSome then st.ctr else st.ctr + 1 })

/-- knowledge-graph.ts `storeFact` lifted to the engine state (ensure both
endpoints, then upsert the relation under a freshly minted id; the entity
`properties` passed are always `{}` and the relation `properties` default to
`{}` at the memory-manager call sites). -/
def storeFactS (st : MemState) (subjectLabel predicate objectLabel : String)
    (subjectType objectType : String) (confidence : ℚ) (ts : Nat) : String × MemState :=
  let (subjectId, st1) := ensureEntityS st subjectLabel subjectType "\x7b\x7d" confidence ts
  let (objectId, st2) := ensureEntityS st1 objectLabel objectType "\x7b\x7d" confidence ts
  let relId := genId st2.ctr
  (relId, { st2 with
            ctr := st2.ctr + 1
            graph := upsertRelation st2.graph relId subjectId predicate objectId
              "\x7b\x7d" confidence none none none ts })

/-- memory-manager.ts `checkTier0Overflow` (session-aware): after an event
insert, if the current-session working-token total exceeds the threshold,
remove the chronologically oldest half of the current session's entries,
truncate their concatenation to the Tier-1 budget, write one Tier-1 summary
tagged with the current session whose `source_ids` are the removed entries'
ids, and best-effort index it as a vector. Runs once — no iteration. -/
def checkTier0Overflow (P : ExtParams) (cfg : Config) (st : MemState) (ts : Nat) : MemState :=
  let currentTokens := workingTokens (sessionEntries st)
  if currentTokens ≤ cfg.tier0OverflowThreshold then st
  else
    let entries := sessionEntries st
    let halfIdx := entries.length / 2
    let toCompress := entries.take halfIdx
    if toCompress = [] then st
    else
      let compressIds := toCompress.map (·.id)
      let st1 := { st with working := st.working.filter (fun e => e.id ∉ compressIds) }
      let combinedContent := joinSep "\n" (toCompress.map (·.content))
      let compressed := (P.truncate combinedContent cfg.tier1Session).1
      let summaryId := genId st1.ctr
      let tokens := P.countTokens compressed
      let st2 := insertSummary { st1 with ctr := st1.ctr + 1 } summaryId 1 compressed
        tokens st.currentSession compressIds ts
      (addToVectorStore P st2 compressed summaryId "summary" 0.9 ts).2

/-- memory-manager.ts `StoreResult` (session-aware version). -/
structure StoreResult where
  memoryId : String
  tier : Nat
  entitiesCreated : List String
  factsStored : Nat
  vectorId : Option String
  sessionId : Option String
  deriving DecidableEq, Repr

/-- The five `memory_store` kinds. -/
inductive MemoryType where
  | fact | preference | event | summary | core
  deriving DecidableEq, Repr

/-- memory-manager.ts `storeMemory` (session-aware version): classify by kind
and route to the tiers, graph and vector store exactly as the `switch` does.
Vector indexing never fails in the embedding (its failure mode is modelled by
the `embedQ` parameter returning a zero vector), so `vectorId` is always
set. -/
def storeMemory (P : ExtParams) (cfg : Config) (st : MemState) (content : String)
    (memoryType : MemoryType) (confidence : ℚ) (entities : List String)
    (ts : Nat) : StoreResult × MemState :=
  let sessionId := st.currentSession
  match memoryType with
  | .core =>
    let summaryId := genId st.ctr
    let tokens := P.countTokens content
    let st1 := insertSummary { st with ctr := st.ctr + 1 } summaryId 3 content tokens
      sessionId []  ts
    let (vecId, st2) := addToVectorStore P st1 content summaryId "core" confidence ts
    ({ memoryId := summaryId, tier := 3, entitiesCreated := [], factsStored := 0,
       vectorId := some vecId, sessionId := sessionId }, st2)
  | .fact =>
    let factId := genId st.ctr
    let st0 := { st with ctr := st.ctr + 1 }
    let (st1, created) := entities.foldl
      (fun (acc : MemState × List String) entityLabel =>
        let (_, st') := ensureEntityS acc.1 entityLabel "unknown" "\x7b\x7d" confidence ts
        (st', acc.2 ++ [entityLabel]))
      (st0, [])
    let (st2, factsStored) :=
      if entities.length ≥ 2 then
        let predicate := P.inferPredicate content
        (entities.drop 1).foldl
          (fun (acc : MemState × Nat) obj =>
            let (_, st') := storeFactS acc.1 entities.head! predicate obj "unknown" "unknown" confidence ts
            (st', acc.2 + 1))
          (st1, 0)
      else (st1, 0)
    let tokens := P.countTokens content
    let st3 := insertSummary st2 factId 1 content tokens sessionId entities ts
    let (vecId, st4) := addToVectorStore P st3 content factId "fact" confidence ts
    ({ memoryId := factId, tier := 1, entitiesCreated := created,
       factsStored := factsStored, vectorId := some vecId, sessionId := sessionId }, st4)
  | .preference =>
    let prefId := genId st.ctr
    let tokens := P.countTokens content
    let st0 := { st with ctr := st.ctr + 1 }
    let (_, st1) := ensureEntityS st0 "User" "person" "\x7b\x7d" 1 ts
    let (st2, factsStored) := entities.foldl
      (fun (acc : MemState × Nat) entityLabel =>
        let (_, stA) := ensureEntityS acc.1 entityLabel "unknown" "\x7b\x7d" confidence ts
        let (_, stB) := storeFactS stA "User" "prefers" entityLabel "person" "unknown" confidence ts
        (stB, acc.2 + 1))
      (st1, 0)
    let st3 := insertSummary st2 prefId 2 content tokens sessionId entities ts
    let (vecId, st4) := addToVectorStore P st3 content prefId "preference" confidence ts
    ({ memoryId := prefId, tier := 2, entitiesCreated := "User" :: entities,
       factsStored := factsStored, vectorId := some vecId, sessionId := sessionId }, st4)
  | .event =>
    let (eventId, st1) := addToWorkingMemory P st content ts
    let (st2, created) := entities.foldl
      (fun (acc : MemState × List String) entityLabel =>
        let (_, st') := ensureEntityS acc.1 entityLabel "unknown" "\x7b\x7d" confidence ts
        (st', acc.2 ++ [entityLabel]))
      (st1, [])
    let (vecId, st3) := addToVectorStore P st2 content eventId "event" confidence ts
    let st4 := checkTier0Overflow P cfg st3 ts
    ({ memoryId := eventId, tier := 0, entitiesCreated := created, factsStored := 0,
       vectorId := some vecId, sessionId := sessionId }, st4)
  | .summary =>
    let sumId := genId st.ctr
    let tokens := P.countTokens content
    let st1 := insertSummary { st with ctr := st.ctr + 1 } sumId 1 content tokens
      sessionId entities ts
    let (vecId, st2) := addToVectorStore P st1 content sumId "summary" confidence ts
    ({ memoryId := sumId, tier := 1, entitiesCreated := [], factsStored := 0,
       vectorId := some vecId, sessionId := sessionId }, st2)

/-- The three `memory_forget` actions. -/
inductive ForgetAction where
  | deprecate | correct | delete
  deriving DecidableEq, Repr

/-- memory-manager.ts `forgetMemory`: summaries first (delete removes the row
and its vectors; deprecate prepends `"[DEPRECATED] "` and adds 15 to the
stored count; correct replaces content, recounts and re-embeds); then the
working buffer (delete splices the entry out; correct-with-correction rewrites
it in place; anything else falls through to not-found). -/
def forgetMemory (P : ExtParams) (st : MemState) (memoryId : String)
    (action : ForgetAction) (correction : Option String) (ts : Nat) :
    String × MemState :=
  match getSummaryById st memoryId with
  | some summary =>
    match action with
    | .delete =>
      let st1 := removeVectorsBySource st memoryId
      ("Deleted memory " ++ memoryId ++ " (was Tier " ++ toString summary.tier ++ " summary).",
        deleteSummary st1 memoryId)
    | .deprecate =>
      ("Deprecated memory " ++ memoryId ++ ".",
        updateSummaryContent st memoryId ("[DEPRECATED] " ++ summary.content)
          (summary.tokenCount + 15) ts)
    | .correct =>
      match correction with
      | none => ("Correction text required for 'correct' action.", st)
      | some corr =>
        let tokens := P.countTokens corr
        let st1 := updateSummaryContent st memoryId corr tokens ts
        let st2 := removeVectorsBySource st1 memoryId
        let st3 := (addToVectorStore P st2 corr memoryId
          (if summary.tier = 3 then "core" else "summary") 0.9 ts).2
        ("Corrected memory " ++ memoryId ++ " with new content.", st3)
  | none =>
    match st.working.findIdx? (fun e => e.id == memoryId) with
    | some idx =>
      match action, correction with
      | .delete, _ =>
        ("Deleted working memory entry " ++ memoryId ++ ".",
          { st with working := st.working.eraseIdx idx })
      | .correct, some corr =>
        ("Corrected working memory entry " ++ memoryId ++ ".",
          { st with working := st.working.map (fun e =>
              if e.id = memoryId then
                { e with content := corr, tokens := P.countTokens corr }
              else e) })
      | _, _ => ("Memory " ++ memoryId ++ " not found.", st)
    | none => ("Memory " ++ memoryId ++ " not found.", st)

/-- memory-manager.ts `archiveWorkingMemory`: collect the entries tagged with
`sessionId`; none → null; otherwise truncate their concatenation to the
Tier-1 budget, insert a Tier-1 summary tagged with that session listing the
entries in `source_ids`, best-effort index it, purge the entries from the
buffer, and return a one-line report. -/
def archiveWorkingMemory (P : ExtParams) (cfg : Config) (st : MemState)
    (sessionId : String) (ts : Nat) : Option String × MemState :=
  let entries := st.working.filter (fun e => e.sessionId == some sessionId)
  if entries = [] then (none, st)
  else
    let combinedContent := joinSep "\n" (entries.map (·.content))
    let originalTokens := workingTokens entries
    let compressed := (P.truncate combinedContent cfg.tier1Session).1
    let summaryId := genId st.ctr
    let compressedTokens := P.countTokens compressed
    let st1 := insertSummary { st with ctr := st.ctr + 1 } summaryId 1 compressed
      compressedTokens (some sessionId) (entries.map (·.id)) ts
    let st2 := (addToVectorStore P st1 compressed summaryId "summary" 0.9 ts).2
    let archiveIds := entries.map (·.id)
    (some ("Archived " ++ toString entries.length ++ " entries (" ++
        toString originalTokens ++ " tokens) → Tier 1 summary (" ++
        toString compressedTokens ++ " tokens)"),
      { st2 with working := st2.working.filter (fun e => e.id ∉ archiveIds) })

/-- The `session_start` tool (server.ts handler composed with session.ts
`startSession`): archive the outgoing session's working buffer when a session
is active (the `sessions` table write is not modelled), install the freshly
minted session id, then `clearWorkingMemory()` — the handler empties the
whole buffer to guarantee isolation. -/
def sessionStartHandler (P : ExtParams) (cfg : Config) (st : MemState)
    (newSessionId : String) (ts : Nat) : MemState :=
  let st1 := match st.currentSession with
    | some old => (archiveWorkingMemory P cfg st old ts).2
    | none => st
  let st2 := { st1 with currentSession := some newSessionId }
  { st2 with working := [] }

/-- database.ts `searchEntities`: `label LIKE ? COLLATE NOCASE` substring
match, ordered by confidence descending. -/
def searchEntities (db : GraphDb) (query : String) : List EntityRow :=
  stableSortBy (fun a b => decide (b.confidence ≤ a.confidence))
    (db.entities.filter (fun e =>
      decide ((asciiLower query).data <:+: (asciiLower e.label).data)))

/-- JS `Number.prototype.toFixed(2)` for the non-negative confidences the
graph serializer formats (round half away from zero to 2 decimals). -/
def toFixed2 (q : ℚ) : String :=
  let cents := (q * 100 + 1/2).floor.toNat
  let frac := cents % 100
  toString (cents / 100) ++ "." ++ (if frac < 10 then "0" ++ toString frac else toString frac)

/-- The ` [conf:x.xx]` suffix — emitted only when confidence < 1. -/
def confSuffix (confidence : ℚ) : String :=
  if confidence < 1 then " [conf:" ++ toFixed2 confidence ++ "]" else ""

/-- knowledge-graph.ts `GraphQueryResult`. -/
structure GraphQueryResult where
  entity : EntityRow
  outgoing : List RelationRow
  incoming : List RelationRow
  neighbors : List EntityRow
  serialized : String
  deriving Repr

/-- knowledge-graph.ts `serializeQueryResult`: the neighbor map is a JS `Map`
built from the neighbor list (later entries win), then one line per outgoing
and incoming relation whose endpoint resolves. -/
def serializeQueryResult (entity : EntityRow) (outgoing incoming : List RelationRow)
    (neighbors : List EntityRow) : String :=
  let lookup := fun (id : String) => neighbors.reverse.find? (fun n => n.id == id)
  let outLines := outgoing.filterMap (fun rel =>
    (lookup rel.objectId).map (fun obj =>
      "  → " ++ rel.predicate ++ " → " ++ obj.label ++ confSuffix rel.confidence))
  let inLines := incoming.filterMap (fun rel =>
    (lookup rel.subjectId).map (fun subj =>
      "  ← " ++ subj.label ++ " → " ++ rel.predicate ++ confSuffix rel.confidence))
  joinSep "\n" (("Entity: " ++ entity.label ++ " (" ++ entity.entityType ++ ")") ::
    (outLines ++ inLines))

/-- knowledge-graph.ts `queryEntityById`: active relations in and out, one-hop
neighbors, and for depth > 1 one extra hop (relations to endpoints not yet in
the first-hop neighbor set and different from the root). -/
def queryEntityById (db : GraphDb) (entityId : String) (depth : Nat) :
    Option GraphQueryResult :=
  match getEntityById db entityId with
  | none => none
  | some entity =>
    let outgoing := getRelationsBySubject db entityId
    let incoming := getRelationsByObject db entityId
    let neighborIds := jsSetDedup (outgoing.map (·.objectId) ++ incoming.map (·.subjectId))
    let neighbors := neighborIds.filterMap (getEntityById db)
    if depth > 1 then
      let step := neighbors.foldl
        (fun (acc : List RelationRow × List String) neighbor =>
          let nOut := getRelationsBySubject db neighbor.id
          let nIn := getRelationsByObject db neighbor.id
          (nOut ++ nIn).foldl
            (fun (acc2 : List RelationRow × List String) rel =>
              let targetId := if rel.subjectId = neighbor.id then rel.objectId else rel.subjectId
              if targetId ≠ entityId ∧ targetId ∉ neighborIds then
                (acc2.1 ++ [rel],
                 if targetId ∈ acc2.2 then acc2.2 else acc2.2 ++ [targetId])
              else acc2)
            acc)
        ([], [])
      let deeperRelations := step.1
      let neighbors2 := neighbors ++ step.2.filterMap (getEntityById db)
      let outgoing2 := outgoing ++ deeperRelations.filter (fun r =>
        r.subjectId == entityId || neighborIds.contains r.subjectId)
      let incoming2 := incoming ++ deeperRelations.filter (fun r =>
        r.objectId == entityId || neighborIds.contains r.objectId)
      some { entity := entity, outgoing := outgoing2, incoming := incoming2,
             neighbors := neighbors2,
             serialized := serializeQueryResult entity outgoing2 incoming2 neighbors2 }
    else
      some { entity := entity, outgoing := outgoing, incoming := incoming,
             neighbors := neighbors,
             serialized := serializeQueryResult entity outgoing incoming neighbors }

/-- knowledge-graph.ts `queryEntity`: case-insensitive exact label lookup,
falling back to the fuzzy `searchEntities` substring match (top hit by
confidence), null when both miss. -/
def queryEntity (db : GraphDb) (entityLabel : String) (depth : Nat) :
    Option GraphQueryResult :=
  match getEntityByLabel db entityLabel with
  | none =>
    match searchEntities db entityLabel with
    | [] => none
    | m :: _ => queryEntityById db m.id depth
  | some entity => queryEntityById db entity.id depth

/-- vector-store.ts `VectorSearchFilter`. -/
structure VectorSearchFilter where
  sourceTypes : Option (List String) := none
  after : Option Nat := none
  before : Option Nat := none
  minConfidence : Option ℚ := none
  deriving Repr

/-- vector-store.ts `VectorSearchResult` (metadata omitted). -/
structure VectorSearchResult where
  id : String
  sourceId : String
  sourceType : String
  contentPreview : String
  similarity : ℚ
  confidence : ℚ
  createdAt : Nat
  deriving Repr

/-- The per-record filter checks of `searchVectorsByEmbedding` (a record is
kept unless one of the `continue` branches fires). -/
def vectorPassesFilter (filters : Option VectorSearchFilter) (v : VectorRec) : Bool :=
  match filters with
  | none => true
  | some f =>
    (match f.sourceTypes with
     | some sts => sts.isEmpty || sts.contains v.sourceType
     | none => true) &&
    (match f.after with | some a => decide (a ≤ v.createdAt) | none => true) &&
    (match f.before with | some b => decide (v.createdAt ≤ b) | none => true) &&
    (match f.minConfidence with | some m => decide (m ≤ v.confidence) | none => true)

/-- vector-store.ts `searchVectorsByEmbedding`: the cache is loaded from
`getAllVectors()` (`ORDER BY created_at DESC`); every record passing the
filters is scored with the cosine, sorted by similarity descending (stable),
and the top K are returned. -/
def searchVectorsByEmbedding (P : ExtParams) (st : MemState)
    (queryEmbedding : List ℚ) (topK : Nat) (filters : Option VectorSearchFilter) :
    List VectorSearchResult :=
  let cache := stableSortBy (fun a b => decide (b.createdAt ≤ a.createdAt)) st.vectors
  let scored := (cache.filter (vectorPassesFilter filters)).map (fun v =>
    { id := v.id, sourceId := v.sourceId, sourceType := v.sourceType,
      contentPreview := v.contentPreview,
      similarity := P.sim queryEmbedding v.embedding,
      confidence := v.confidence, createdAt := v.createdAt })
  (stableSortBy (fun a b => decide (b.similarity ≤ a.similarity)) scored).take topK

/-- vector-store.ts `searchVectors` = search by the embedded query text. -/
def searchVectors (P : ExtParams) (st : MemState) (query : String) (topK : Nat)
    (filters : Option VectorSearchFilter) : List VectorSearchResult :=
  searchVectorsByEmbedding P st (P.embedQ query) topK filters

/-- The stop-word list of context-assembler.ts `extractEntityMentions`. -/
def stopWords : List String :=
  ["The", "This", "That", "What", "When", "Where", "Who", "Why", "How",
   "I", "You", "We", "They", "He", "She", "It", "My", "Your", "Our",
   "Can", "Could", "Would", "Should", "Do", "Does", "Did", "Is", "Are",
   "Was", "Were", "Has", "Have", "Had", "Will", "And", "But", "Or",
   "Not", "No", "Yes", "If", "Then", "So", "Also", "Just", "Only",
   "About", "After", "Before", "Between", "From", "Into", "For", "With"]

/-- context-assembler.ts `extractEntityMentions`: capitalized runs plus quoted
substrings (quotes stripped), set-deduplicated, minus stop words and
single-character strings. The two regex matches are the `ExtParams` fields. -/
def extractEntityMentions (P : ExtParams) (query : String) : List String :=
  let capMatches := P.matchCapitalized query
  let quotedClean := (P.matchQuoted query).map (fun q => String.mk (q.data.filter (fun c => c != '"')))
  let entities := jsSetDedup (capMatches ++ quotedClean)
  entities.filter (fun e => !stopWords.contains e && e.length > 1)

/-- context-assembler.ts `ContextCandidate`. -/
structure ContextCandidate where
  id : String
  content : String
  tokens : Nat
  score : ℚ
  source : String
  similarity : ℚ
  recency : ℚ
  priority : ℚ
  frequency : ℚ
  createdAt : Nat
  deriving DecidableEq, Repr

/-- context-assembler.ts `sourcePriority`. -/
def sourcePriority (source : String) : ℚ :=
  if source = "core" then 1.0
  else if source = "working" then 0.95
  else if source = "current_session" then 0.9
  else if source = "graph" then 0.8
  else if source = "long_term" then 0.65
  else if source = "past_sessions" then 0.5
  else if source = "vector" then 0.4
  else 0.3

/-- The word set of context-assembler.ts `textSimilarity`: lowercased,
whitespace-split, words longer than 2 characters, as a JS `Set`
(first-occurrence dedup; only size and membership are used). -/
def wordSet (s : String) : List String :=
  jsSetDedup ((jsWords (asciiLower s)).filter (fun w => w.length > 2))

/-- context-assembler.ts `textSimilarity`: Jaccard over the word sets; 0 when
either set is empty. -/
def textSimilarity (a b : String) : ℚ :=
  let wordsA := wordSet a
  let wordsB := wordSet b
  if wordsA.length = 0 ∨ wordsB.length = 0 then 0
  else
    let inter := (wordsA.filter (fun w => wordsB.contains w)).length
    let union := wordsA.length + wordsB.length - inter
    if union = 0 then 0 else (inter : ℚ) / (union : ℚ)

/-- One iteration of the `deduplicate` outer loop: scan the kept list in
order; at the first kept candidate within the threshold, replace it in place
when the newcomer scores strictly higher, otherwise drop the newcomer; with no
hit, append the newcomer. -/
def dedupInsert (threshold : ℚ) (result : List ContextCandidate)
    (candidate : ContextCandidate) : List ContextCandidate :=
  match result.findIdx? (fun existing =>
      decide (threshold ≤ textSimilarity candidate.content existing.content)) with
  | some idx =>
    match result[idx]? with
    | some existing =>
      if existing.score < candidate.score then result.set idx candidate else result
    | none => result
  | none => result ++ [candidate]

/-- context-assembler.ts `deduplicate`. -/
def deduplicate (candidates : List ContextCandidate) (threshold : ℚ) :
    List ContextCandidate :=
  candidates.foldl (dedupInsert threshold) []

/-- context-assembler.ts steps 7: composite scoring with the configured
weights. -/
def scoreCandidates (cfg : Config) (candidates : List ContextCandidate) :
    List ContextCandidate :=
  candidates.map (fun c =>
    { c with score := cfg.semanticWeight * c.similarity + cfg.recencyWeight * c.recency +
        cfg.priorityWeight * c.priority + cfg.frequencyWeight * c.frequency })

/-- context-assembler.ts step 9, the greedy budget fill: include a candidate
iff its token count is at most the remaining budget, subtracting on
inclusion. Also returns the final remaining budget. -/
def budgetFill : List ContextCandidate → ℤ → List ContextCandidate × ℤ
  | [], remaining => ([], remaining)
  | c :: cs, remaining =>
    if (c.tokens : ℤ) ≤ remaining then
      let (sel, r') := budgetFill cs (remaining - c.tokens)
      (c :: sel, r')
    else budgetFill cs remaining

/-- `sourceCounts[source] = (sourceCounts[source] || 0) + 1` on a JS object
(string keys iterate in insertion order). -/
def bumpCount (counts : List (String × Nat)) (key : String) : List (String × Nat) :=
  if counts.any (fun p => p.1 = key) then
    counts.map (fun p => if p.1 = key then (p.1, p.2 + 1) else p)
  else counts ++ [(key, 1)]

/-- The `[Core Memory]` section of context-assembler.ts step 1: built (and
charged against the budget) iff core memory is non-sentinel and non-empty,
truncated to `min(coreTokens, tier3Core)`. -/
def coreSectionOf (P : ExtParams) (cfg : Config) (st : MemState) : String :=
  let coreMemory := getCoreMemory st
  let coreTokens := P.countTokens coreMemory
  if coreMemory ≠ "No core memories stored yet." ∧ coreTokens > 0 then
    "[Core Memory] " ++ (P.truncate coreMemory (min coreTokens cfg.tier3Core)).1
  else ""

/-- context-assembler.ts steps 2-6: gather the candidate list (working
memory, vector hits above the 0.3 floor, the graph block, current-session
Tier-1, past-session Tier-1, Tier-2), together with the access-log rows the
graph stage writes (the Tier-1/Tier-2 frequency reads happen after those
writes). -/
def gatherCandidates (P : ExtParams) (st : MemState) (query : String)
    (filters : Option VectorSearchFilter) (ts : Nat) :
    List ContextCandidate × List AccessRec :=
  let workingCands : List ContextCandidate :=
    let workingMem := getWorkingMemory st
    if workingMem.length > 0 then
      [{ id := "working-memory", content := workingMem,
         tokens := P.countTokens workingMem, score := 0, source := "working",
         similarity := 0.6, recency := 1.0, priority := sourcePriority "working",
         frequency := 1.0, createdAt := ts }]
    else []
  let vectorCands := (searchVectors P st query 20 filters).filterMap (fun vr =>
    if vr.similarity < 0.3 then none
    else some
      { id := vr.id, content := vr.contentPreview,
        tokens := P.countTokens vr.contentPreview, score := 0, source := "vector",
        similarity := vr.similarity, recency := P.recency ts vr.createdAt,
        priority := sourcePriority (if vr.sourceType = "core" then "core" else "vector"),
        frequency := min ((getAccessFrequency st vr.id : ℚ) / 10) 1,
        createdAt := vr.createdAt })
  let mentions := extractEntityMentions P query
  let graphResults := (mentions.take 5).filterMap (fun m => queryEntity st.graph m 2)
  let graphLogs := graphResults.map (fun r =>
    ({ memoryId := r.entity.id, memoryType := "entity", accessedAt := ts } : AccessRec))
  let graphCands : List ContextCandidate :=
    if graphResults.length > 0 then
      let graphText := joinSep "\n\n" (graphResults.map (·.serialized))
      [{ id := "graph-" ++ joinSep "-" mentions, content := graphText,
         tokens := P.countTokens graphText, score := 0, source := "graph",
         similarity := 0.7, recency := 1.0, priority := sourcePriority "graph",
         frequency := 0.5, createdAt := ts }]
    else []
  let stG := { st with accessLog := st.accessLog ++ graphLogs }
  let curCands := match st.currentSession with
    | some sid => ((getSummariesByTierAndSession st 1 sid).take 5).map (fun s =>
        { id := s.id, content := s.content, tokens := s.tokenCount, score := 0,
          source := "current_session", similarity := 0.6,
          recency := P.recency ts s.createdAt,
          priority := sourcePriority "current_session",
          frequency := min ((getAccessFrequency stG s.id : ℚ) / 10) 1,
          createdAt := s.createdAt })
    | none => []
  let pastTier1 := match st.currentSession with
    | some sid => getSummariesByTierExcludingSession st 1 sid
    | none => getSummariesByTier st 1
  let pastCands := (pastTier1.take 10).map (fun s =>
    ({ id := s.id, content := s.content, tokens := s.tokenCount, score := 0,
       source := "past_sessions", similarity := 0.5,
       recency := P.recency ts s.createdAt,
       priority := sourcePriority "past_sessions",
       frequency := min ((getAccessFrequency stG s.id : ℚ) / 10) 1,
       createdAt := s.createdAt } : ContextCandidate))
  let tier2Cands := ((getSummariesByTier st 2).take 5).map (fun s =>
    ({ id := s.id, content := s.content, tokens := s.tokenCount, score := 0,
       source := "long_term", similarity := 0.4,
       recency := P.recency ts s.createdAt,
       priority := sourcePriority "long_term",
       frequency := min ((getAccessFrequency stG s.id : ℚ) / 10) 1,
       createdAt := s.createdAt } : ContextCandidate))
  (workingCands ++ vectorCands ++ graphCands ++ curCands ++ pastCands ++ tier2Cands,
   graphLogs)

/-- context-assembler.ts section labels. -/
def sourceLabel (source : String) : String :=
  if source = "working" then "Current Session"
  else if source = "current_session" then "Current Session Notes"
  else if source = "graph" then "Known Facts"
  else if source = "long_term" then "Long-term Knowledge"
  else if source = "past_sessions" then "Past Sessions"
  else if source = "vector" then "Semantic Matches"
  else source

/-- context-assembler.ts fixed section order. -/
def sourceOrder : List String :=
  ["working", "current_session", "graph", "long_term", "past_sessions", "vector"]

/-- context-assembler.ts `AssembledContext`. -/
structure AssembledContext where
  text : String
  totalTokens : Nat
  budgetUsed : ℤ
  budgetRemaining : ℤ
  sourceCounts : List (String × Nat)
  candidatesConsidered : Nat
  candidatesSelected : Nat
  sessionId : Option String
  deriving Repr

/-- `tokenBudget || config.tokenBudgets.defaultRetrieveBudget` (JS `||`: an
absent or zero budget falls back to the default). -/
def resolveBudget (cfg : Config) (tokenBudget : Option Nat) : Nat :=
  match tokenBudget with
  | some b => if b = 0 then cfg.defaultRetrieveBudget else b
  | none => cfg.defaultRetrieveBudget

/-- The remaining budget after the up-front core-section charge of
context-assembler.ts step 1 (can go negative — the code never clamps). -/
def initialRemaining (P : ExtParams) (cfg : Config) (st : MemState)
    (tokenBudget : Option Nat) : ℤ :=
  let coreSection := coreSectionOf P cfg st
  if coreSection ≠ "" then
    (resolveBudget cfg tokenBudget : ℤ) - P.countTokens coreSection
  else (resolveBudget cfg tokenBudget : ℤ)

/-- Steps 7-9 head of context-assembler.ts: scored, deduplicated candidates
in stable score-descending order, ready for the greedy fill. -/
def sortedDeduped (P : ExtParams) (cfg : Config) (st : MemState) (query : String)
    (filters : Option VectorSearchFilter) (ts : Nat) : List ContextCandidate :=
  stableSortBy (fun a b => decide (b.score ≤ a.score))
    (deduplicate (scoreCandidates cfg (gatherCandidates P st query filters ts).1)
      cfg.dedupSimilarityThreshold)

/-- context-assembler.ts `assembleContext` (the implementation shipped in
`src/` and dispatched by the memory_retrieve tool): core section, candidate
gathering, composite scoring, dedup, stable sort by score, greedy budget
fill, sectioned formatting with the metadata footer (or the empty-result
guidance message), plus the access-log writes. -/
def assembleContext (P : ExtParams) (cfg : Config) (st : MemState) (query : String)
    (tokenBudget : Option Nat) (filters : Option VectorSearchFilter) (ts : Nat) :
    AssembledContext × MemState :=
  let budget := resolveBudget cfg tokenBudget
  let sessionId := st.currentSession
  let coreSection := coreSectionOf P cfg st
  let remaining0 : ℤ := initialRemaining P cfg st tokenBudget
  let counts0 : List (String × Nat) := if coreSection ≠ "" then [("core", 1)] else []
  let gathered := gatherCandidates P st query filters ts
  let candidates := gathered.1
  let graphLogs := gathered.2
  let filled := budgetFill (sortedDeduped P cfg st query filters ts) remaining0
  let selected := filled.1
  let remaining1 := filled.2
  let counts1 := selected.foldl (fun acc c => bumpCount acc c.source) counts0
  let selLogs := selected.map (fun c =>
    ({ memoryId := c.id, memoryType := c.source, accessedAt := ts } : AccessRec))
  let sections := (if coreSection ≠ "" then [coreSection] else []) ++
    sourceOrder.filterMap (fun src =>
      let items := selected.filter (fun c => c.source = src)
      if items ≠ [] then
        some ("[" ++ sourceLabel src ++ "] " ++ joinSep "\n" (items.map (·.content)))
      else none)
  let budgetUsed := (budget : ℤ) - remaining1
  let finalText :=
    if sections ≠ [] then
      joinSep "\n\n" sections ++ "\n\n--- Session: " ++
        (match sessionId with | some sid => sid.take 8 | none => "none") ++
        " | Sources: " ++
        joinSep ", " (counts1.map (fun p => p.1 ++ ":" ++ toString p.2)) ++
        " | Tokens: " ++ toString budgetUsed ++ "/" ++ toString budget ++ " ---"
    else
      "No relevant memories found. This appears to be a new conversation — use memory_store to save important information as you go."
  ({ text := finalText, totalTokens := P.countTokens finalText,
     budgetUsed := budgetUsed, budgetRemaining := remaining1,
     sourceCounts := counts1, candidatesConsidered := candidates.length,
     candidatesSelected := selected.length + (if coreSection ≠ "" then 1 else 0),
     sessionId := sessionId },
   { st with accessLog := st.accessLog ++ graphLogs ++ selLogs })

/-- A tool reply: the text content and the `isError` flag. -/
structure ToolReply where
  text : String
  isError : Bool
  deriving DecidableEq, Repr

/-- The fixed head of the server.ts REJECTED reply, up to the quoted echo of
the submitted content. -/
def rejectionHead (wordCount : Nat) : String :=
  "REJECTED" ++ ": Memory too short (" ++ toString wordCount ++
  " words). Entries must be detailed, self-contained paragraphs (3-5+ sentences, 10+ words minimum). Your entry: \""

/-- The fixed tail of the server.ts REJECTED reply. -/
def rejectionTail : String :=
  "\"\n\nRewrite with full context: WHO/WHAT/WHY/HOW/WHERE. Example:\nBAD:  \"Fixed audio issue\"\nGOOD: \"Fixed a CORS audio playback issue on the user\x27s website fate.rf.gd. The <audio> element was trying to load files cross-origin. Solution: added crossorigin=\x27anonymous\x27 and configured server CORS headers. Audio visualizer now works with Vanta.js background.\"\n\nPlease resubmit with a detailed version."

/-- The server.ts brevity warning appended when the accepted content has
fewer than 25 words. -/
def brevityWarning : String :=
  "\n⚠️ Entry is brief. Consider adding more context (WHY, HOW, specifics) for better future retrieval."

/-- The JS-visible name of a memory kind (`result.memoryType`). -/
def memoryTypeStr : MemoryType → String
  | .fact => "fact"
  | .preference => "preference"
  | .event => "event"
  | .summary => "summary"
  | .core => "core"

/-- The memory_store tool handler of server.ts: missing content errors out;
content under 10 whitespace-separated words is REJECTED (echoing its first 80
characters) before `storeMemory` runs; accepted content under 25 words gets
the brevity warning appended; the reply lines are assembled with
`.filter(Boolean).join("\n")`. -/
def memoryStoreHandler (P : ExtParams) (cfg : Config) (st : MemState)
    (content : String) (memoryType : MemoryType) (confidence : ℚ)
    (entities : List String) (ts : Nat) : ToolReply × MemState :=
  if content = "" then
    ({ text := "Error: \x27content\x27 is required.", isError := true }, st)
  else
    let wordCount := jsWordCount content
    if wordCount < 10 then
      ({ text := rejectionHead wordCount ++ content.take 80 ++ rejectionTail,
         isError := true }, st)
    else
      let stored := storeMemory P cfg st content memoryType confidence entities ts
      let result := stored.1
      let qualityNote := if wordCount < 25 then brevityWarning else ""
      let lines : List (Option String) :=
        [some ("Stored as " ++ memoryTypeStr memoryType ++ " (Tier " ++
           toString result.tier ++ ")"),
         some ("ID: " ++ result.memoryId),
         result.sessionId.map (fun sid => "Session: " ++ sid.take 8),
         if result.factsStored > 0 then
           some ("Facts stored: " ++ toString result.factsStored) else none,
         if result.entitiesCreated ≠ [] then
           some ("Entities: " ++ joinSep ", " result.entitiesCreated) else none,
         result.vectorId.map (fun _ => "Vector indexed"),
         if qualityNote ≠ "" then some qualityNote else none]
      ({ text := joinSep "\n" (lines.filterMap id), isError := false }, stored.2)

/-- A concrete deterministic tokenizer instantiating `ExtParams.countTokens`
for the closed runs: whitespace word count (spec section 4.1 admits any
deterministic tokenization used consistently everywhere the engine counts). -/
def wcTok (s : String) : Nat :=
  (jsWords s).length

/-- `truncateToTokenBudget` realized for `wcTok`: identity when within
budget, otherwise the first `budget` words. -/
def wcTruncate (s : String) (budget : Nat) : String × Nat :=
  if wcTok s ≤ budget then (s, wcTok s)
  else (joinSep " " ((jsWords s).take budget), budget)

/-- Concrete external parameters for the closed runs: the word-count
tokenizer, the `none` embedding provider (zero vectors, so every cosine is
0), a constant recency (its value never influences the statements proved),
and regex-match oracles that are correct for every query those runs issue
(their queries contain no capitalized run and no quoted substring, so both
`match` calls return no matches). -/
def exParams : ExtParams :=
  { countTokens := wcTok
    truncate := wcTruncate
    embedQ := fun _ => []
    sim := fun _ _ => 0
    recency := fun _ _ => 1
    matchCapitalized := fun _ => []
    matchQuoted := fun _ => []
    inferPredicate := fun _ => "related_to" }

/-- The note stored during the first session of the C1 run (10 words). -/
def c1Content : String := "the quick brown fox jumped over the lazy dog today"

/-- C1 run: start session 1, store a summary-kind note in it, then
`session_start` again — the exact store/session_start/retrieve shape of the
claim. -/
def c1State : MemState :=
  let st1 := sessionStartHandler exParams defaultConfig initState "sess-aaaa-0001" 100
  let st2 := (storeMemory exParams defaultConfig st1 c1Content .summary 1 [] 110).2
  sessionStartHandler exParams defaultConfig st2 "sess-bbbb-0002" 200

/-- The C1 retrieve, issued in the second session. -/
def c1Run : AssembledContext :=
  (assembleContext exParams defaultConfig c1State "alpha build" none none 300).1

/-- The event stored for the C3 run (10 words). -/
def c3Content : String := "alpha beta gamma delta epsilon zeta eta theta iota kappa"

/-- C3 run state: one event in the current session's working memory. -/
def c3State : MemState :=
  let st1 := sessionStartHandler exParams defaultConfig initState "sessB2345678" 100
  (storeMemory exParams defaultConfig st1 c3Content .event 1 [] 110).2

/-- The C3 retrieve with a token budget of 11. -/
def c3Run : AssembledContext :=
  (assembleContext exParams defaultConfig c3State "alpha build" (some 11) none 300).1

/-- The C3 footer line as emitted by that run. -/
def c3Footer : String :=
  "--- Session: sessB234 | Sources: working:1 | Tokens: 10/11 ---"

/-- C6 run: store one event (its vector is keyed on the working-entry id),
then `forget(id, delete)` on that working-entry id. -/
def c6Stored : StoreResult × MemState :=
  let st1 := sessionStartHandler exParams defaultConfig initState "sess-cccc-0006" 10
  storeMemory exParams defaultConfig st1
    "user fixed the cors audio playback issue on the website today" .event 1 [] 20

/-- The C6 forget-delete call on the stored working-entry id. -/
def c6Forgot : String × MemState :=
  forgetMemory exParams c6Stored.2 c6Stored.1.memoryId .delete none 30

/-- External parameters for the C7 run: a tokenizer charging 100 tokens per
character, so a single short event overflows the default 2500 threshold. -/
def c7Params : ExtParams :=
  { exParams with countTokens := fun s => 100 * s.length }

/-- C7 run: one event of 27 characters (2700 tokens) stored into a fresh
session whose working memory was empty. -/
def c7Stored : StoreResult × MemState :=
  let st1 := sessionStartHandler c7Params defaultConfig initState "sess-dddd-0007" 10
  storeMemory c7Params defaultConfig st1 "overflow event content here" .event 1 [] 20

/-- C2 run: the same fact stored twice through `storeFact` (fresh relation
ids, as `storeFact` always mints them). -/
def c2Db : GraphDb :=
  let step1 := storeFact ⟨[], []⟩ "User" "located_in" "Paris" "unknown" "unknown" 1
    "\x7b\x7d" "e1" "e2" "r1" 10
  (storeFact step1.2 "User" "located_in" "Paris" "unknown" "unknown" 1
    "\x7b\x7d" "e3" "e4" "r2" 20).2

/-- C2 witness history: a genuine supersession (Paris, then London) built
from two `storeFact` calls. -/
def c2WitnessDb : GraphDb :=
  (storeFact (storeFact ⟨[], []⟩ "User" "located_in" "Paris" "unknown" "unknown" 1
      "\x7b\x7d" "e1" "e2" "r1" 10).2
    "User" "located_in" "London" "unknown" "unknown" 1 "\x7b\x7d" "e3" "e4" "r2" 20).2

/-- C4 failing input: an entity `Alpha` with one active and one superseded
relation. -/
def c4Db : GraphDb :=
  { entities :=
      [{ id := "eA", label := "Alpha", entityType := "unknown", properties := "\x7b\x7d",
         createdAt := 1, updatedAt := 1, confidence := 1, sourceSummaryId := none },
       { id := "eB", label := "Beta", entityType := "unknown", properties := "\x7b\x7d",
         createdAt := 1, updatedAt := 1, confidence := 1, sourceSummaryId := none }]
    relations :=
      [{ id := "rActive", subjectId := "eA", predicate := "located_in", objectId := "eB",
         properties := "\x7b\x7d", temporalStart := some 1, temporalEnd := none,
         confidence := 1, sourceSummaryId := none },
       { id := "rOld", subjectId := "eA", predicate := "located_in", objectId := "eB",
         properties := "\x7b\x7d", temporalStart := some 0, temporalEnd := some 5,
         confidence := 1/2, sourceSummaryId := none }] }

/-- The single active relation of `c5Db`. -/
def c5Row : RelationRow :=
  { id := "r1", subjectId := "eU", predicate := "located_in", objectId := "eP",
    properties := "\x7b\x7d", temporalStart := some 1, temporalEnd := none,
    confidence := 1, sourceSummaryId := none }

/-- C10 witness entity row. -/
def c10Row : EntityRow :=
  { id := "eP", label := "Paris", entityType := "city",
    properties := "\x7b\"country\":\"France\"\x7d", createdAt := 1, updatedAt := 1,
    confidence := 1/2, sourceSummaryId := some "sum-1" }

/-- C7 witness pre-state: two current-session entries of 1300 tokens each
(under the 100-tokens-per-character tokenizer of `c7Params`). -/
def c7WitnessState : MemState :=
  { working :=
      [{ id := "w1", content := "abcdefghijklm", tokens := 1300, timestamp := 1,
         sessionId := some "sess-w" },
       { id := "w2", content := "abcdefghijklm", tokens := 1300, timestamp := 2,
         sessionId := some "sess-w" }],
    summaries := [], graph := ⟨[], []⟩, vectors := [], accessLog := [],
    currentSession := some "sess-w", ctr := 5 }

/-- C5 witness database: one active relation `eU --located_in--> eP`. -/
def c5Db : GraphDb :=
  { entities :=
      [{ id := "eU", label := "User", entityType := "unknown", properties := "\x7b\x7d",
         createdAt := 1, updatedAt := 1, confidence := 1, sourceSummaryId := none },
       { id := "eP", label := "Paris", entityType := "unknown", properties := "\x7b\x7d",
         createdAt := 1, updatedAt := 1, confidence := 1, sourceSummaryId := none }]
    relations := [c5Row] }

/-- A candidate carrying only the fields `deduplicate` reads (content and
score). -/
def mkCand (id content : String) (score : ℚ) : ContextCandidate :=
  { id := id, content := content, tokens := 0, score := score, source := "vector",
    similarity := 0, recency := 0, priority := 0, frequency := 0, createdAt := 0 }

/-- Twenty common words shared by the three C8 candidates. -/
def c8Base : String :=
  "aaa aab aac aad aae aaf aag aah aai aaj aak aal aam aan aao aap aaq aar aas aat"

/-- C8 candidate list: A and X each share the 20 base words plus 3 private
words (Jaccard(A,B) = Jaccard(X,B) = 20/23 ≥ 0.85, Jaccard(A,X) = 20/26 <
0.85); B is the bare base with the highest score and arrives last. -/
def c8Cands : List ContextCandidate :=
  [mkCand "A" (c8Base ++ " xxa xxb xxc") 1,
   mkCand "X" (c8Base ++ " yya yyb yyc") 1,
   mkCand "B" c8Base 2]

/-- A pairwise-dissimilar candidate list for the C8 witness. -/
def c8Apart : List ContextCandidate :=
  [mkCand "P" "alpha beta gamma" 1, mkCand "Q" "delta epsilon zeta" 2]

/-- C10 witness database: one entity `Paris` with confidence 1/2 and a
non-trivial type, properties and origin. -/
def c10Db : GraphDb :=
  { entities := [c10Row]
    relations := [] }

/-! ## Helper lemmas -/

theorem two_le_countP {α : Type} [DecidableEq α] {l : List α} {p : α → Bool} {a b : α}
    (ha : a ∈ l) (hb : b ∈ l) (hne : a ≠ b) (hpa : p a = true) (hpb : p b = true) :
    2 ≤ l.countP p := by
  rw [List.countP_eq_length_filter]
  have ha' : a ∈ l.filter p := List.mem_filter.mpr ⟨ha, hpa⟩
  have hb' : b ∈ (l.filter p).erase a := (List.mem_erase_of_ne hne.symm).mpr
    (List.mem_filter.mpr ⟨hb, hpb⟩)
  have h1 := List.length_pos_of_mem hb'
  have h2 := List.length_erase_of_mem ha'
  omega

/-- Mapping a function that either fixes a relation row or stamps a
`temporal_end` on it cannot increase the number of active rows for any
pair. -/
theorem countP_active_map_le (l : List RelationRow) (f : RelationRow → RelationRow)
    (hf : ∀ r, f r = r ∨ (f r).temporalEnd ≠ none) (s p : String) :
    List.countP (isActiveFor s p) (l.map f) ≤ List.countP (isActiveFor s p) l := by
  rw [List.countP_map]
  refine List.countP_mono_left (fun r _ hr => ?_)
  rcases hf r with h | h
  · simpa [Function.comp, h] using hr
  · exfalso
    simp only [Function.comp, isActiveFor, Bool.and_eq_true, beq_iff_eq] at hr
    exact h (by simpa using hr.2)

/-- `endUpdate` either fixes a row or stamps a `temporal_end` on it. -/
theorem endUpdate_cases (existingId : String) (ts : Nat) (r : RelationRow) :
    endUpdate existingId ts r = r ∨ (endUpdate existingId ts r).temporalEnd ≠ none := by
  by_cases hid : r.id = existingId
  · right; simp [endUpdate, hid]
  · left; simp [endUpdate, hid]

/-- The supersession pass never increases the number of active rows for any
pair. -/
theorem countP_supersedePass_le (db : GraphDb) (subjectId predicate objectId : String)
    (ts : Nat) (s p : String) :
    List.countP (isActiveFor s p) (supersedePass db subjectId predicate objectId ts) ≤
      List.countP (isActiveFor s p) db.relations := by
  unfold supersedePass
  cases hfind : findActiveRelation db subjectId predicate with
  | none => exact le_rfl
  | some ex =>
    by_cases hne : ex.objectId ≠ objectId
    · show List.countP (isActiveFor s p)
        (if ex.objectId ≠ objectId then db.relations.map (endUpdate ex.id ts)
         else db.relations) ≤ _
      rw [if_pos hne]
      exact countP_active_map_le db.relations (endUpdate ex.id ts)
        (endUpdate_cases ex.id ts) s p
    · show List.countP (isActiveFor s p)
        (if ex.objectId ≠ objectId then db.relations.map (endUpdate ex.id ts)
         else db.relations) ≤ _
      rw [if_neg hne]

/-- Under the genuine-supersession side condition, the supersession pass
leaves no active row at all for the written pair (there was at most one, and
it gets ended). -/
theorem countP_supersedePass_eq_zero (db : GraphDb)
    (subjectId predicate objectId : String) (ts : Nat)
    (h : db.relations.countP (isActiveFor subjectId predicate) ≤ 1)
    (hobj : ∀ r, findActiveRelation db subjectId predicate = some r →
      r.objectId ≠ objectId) :
    List.countP (isActiveFor subjectId predicate)
      (supersedePass db subjectId predicate objectId ts) = 0 := by
  unfold supersedePass
  cases hfind : findActiveRelation db subjectId predicate with
  | none =>
    show List.countP (isActiveFor subjectId predicate) db.relations = 0
    rw [List.countP_eq_zero]
    exact fun a ha hpa => (List.find?_eq_none.mp hfind a ha) hpa
  | some ex =>
    show List.countP (isActiveFor subjectId predicate)
      (if ex.objectId ≠ objectId then db.relations.map (endUpdate ex.id ts)
       else db.relations) = 0
    rw [if_pos (hobj ex hfind)]
    rw [List.countP_eq_zero]
    intro x hx
    rcases List.mem_map.mp hx with ⟨r, hr, rfl⟩
    have hexact := List.find?_some hfind
    have hexmem := List.mem_of_find?_eq_some hfind
    by_cases hid : r.id = ex.id
    · simp [endUpdate, hid, isActiveFor]
    · rw [show endUpdate ex.id ts r = r by simp [endUpdate, hid]]
      intro hact
      have hne : r ≠ ex := fun hcontra => hid (by rw [hcontra])
      have := two_le_countP hr hexmem hne hact hexact
      omega

/-- `upsertRelation` preserves "at most one active relation per pair" for
every pair, provided the probed active row (when found) has a different
object — the genuine-supersession side condition. -/
theorem countP_upsertRelation (db : GraphDb)
    (id subjectId predicate objectId properties : String) (confidence : ℚ)
    (tStart tEnd : Option Nat) (srcSum : Option String) (ts : Nat) (s p : String)
    (h : db.relations.countP (isActiveFor s p) ≤ 1)
    (hpair : db.relations.countP (isActiveFor subjectId predicate) ≤ 1)
    (hobj : ∀ r, findActiveRelation db subjectId predicate = some r →
      r.objectId ≠ objectId) :
    ((upsertRelation db id subjectId predicate objectId properties confidence
        tStart tEnd srcSum ts).relations.countP (isActiveFor s p)) ≤ 1 := by
  show List.countP (isActiveFor s p)
    ((supersedePass db subjectId predicate objectId ts).filter (fun r => r.id ≠ id) ++
      [newRelationRow id subjectId predicate objectId properties confidence
        tStart tEnd srcSum ts]) ≤ 1
  rw [List.countP_append]
  have hfilter := List.Sublist.countP_le (isActiveFor s p)
    (@List.filter_sublist RelationRow (fun r => decide (r.id ≠ id))
      (supersedePass db subjectId predicate objectId ts))
  by_cases hsp : s = subjectId ∧ p = predicate
  · obtain ⟨rfl, rfl⟩ := hsp
    have h0 := countP_supersedePass_eq_zero db s p objectId ts hpair hobj
    have hnew : List.countP (isActiveFor s p)
        [newRelationRow id s p objectId properties confidence tStart tEnd srcSum ts] ≤ 1 :=
      List.countP_le_length _
    omega
  · have hle := countP_supersedePass_le db subjectId predicate objectId ts s p
    have hnew : List.countP (isActiveFor s p)
        [newRelationRow id subjectId predicate objectId properties confidence
          tStart tEnd srcSum ts] = 0 := by
      rw [List.countP_eq_zero]
      intro a ha
      simp only [List.mem_singleton] at ha
      subst ha
      simp only [isActiveFor, newRelationRow, Bool.and_eq_true, beq_iff_eq]
      rintro ⟨⟨h1, h2⟩, -⟩
      exact hsp ⟨h1.symm, h2.symm⟩
    omega

theorem upsertEntity_relations (db : GraphDb) (id label entityType properties : String)
    (confidence : ℚ) (sourceSummaryId : Option String) (ts : Nat) :
    (upsertEntity db id label entityType properties confidence sourceSummaryId ts).relations =
      db.relations := by
  unfold upsertEntity
  cases getEntityById db id <;> rfl

theorem ensureEntity_relations (db : GraphDb) (label entityType properties : String)
    (confidence : ℚ) (freshId : String) (ts : Nat) :
    ((ensureEntity db label entityType properties confidence freshId ts).2).relations =
      db.relations := by
  unfold ensureEntity
  cases getEntityByLabel db label with
  | none => exact upsertEntity_relations ..
  | some existing =>
    show (if confidence > existing.confidence then
        (existing.id, upsertEntity db existing.id label entityType properties confidence none ts)
      else (existing.id, db)).2.relations = db.relations
    by_cases hc : confidence > existing.confidence
    · rw [if_pos hc]
      exact upsertEntity_relations ..
    · rw [if_neg hc]

theorem findActiveRelation_congr {db1 db2 : GraphDb} (h : db1.relations = db2.relations)
    (subjectId predicate : String) :
    findActiveRelation db1 subjectId predicate = findActiveRelation db2 subjectId predicate := by
  unfold findActiveRelation
  rw [h]

theorem countP_deleteRelation_le (db : GraphDb) (id : String) (s p : String) :
    (deleteRelation db id).relations.countP (isActiveFor s p) ≤
      db.relations.countP (isActiveFor s p) :=
  List.Sublist.countP_le (isActiveFor s p)
    (@List.filter_sublist RelationRow (fun r => decide (r.id ≠ id)) db.relations)

theorem countP_foldl_deleteRelation_le (l : List RelationRow) (db : GraphDb)
    (s p : String) :
    ((l.foldl (fun acc r => deleteRelation acc r.id) db).relations.countP (isActiveFor s p)) ≤
      db.relations.countP (isActiveFor s p) := by
  induction l generalizing db with
  | nil => exact le_rfl
  | cons r rs ih =>
    exact le_trans (ih (deleteRelation db r.id)) (countP_deleteRelation_le db r.id s p)

/-- The graph histories of claim C2 restricted to the side condition the code
needs: every relation write is a genuine supersession — the probed active row
for its `(subject, predicate)`, when present, points at a *different* object.
(`storeFact` on a triple whose active relation has the *same* object falls
outside this set; the C2 counterexample shows the invariant then breaks.) -/
inductive SupersedingRun : GraphDb → Prop where
  | empty : SupersedingRun ⟨[], []⟩
  | upsert (db : GraphDb) (id subjectId predicate objectId properties : String)
      (confidence : ℚ) (tStart tEnd : Option Nat) (srcSum : Option String) (ts : Nat)
      (h : SupersedingRun db)
      (hobj : (findActiveRelation db subjectId predicate).all
        (fun r => r.objectId != objectId) = true) :
      SupersedingRun (upsertRelation db id subjectId predicate objectId properties
        confidence tStart tEnd srcSum ts)
  | fact (db : GraphDb)
      (subjectLabel predicate objectLabel subjectType objectType : String)
      (confidence : ℚ) (properties : String) (subjFresh objFresh relId : String)
      (ts : Nat) (h : SupersedingRun db)
      (hobj : (findActiveRelation db
          (ensureEntity db subjectLabel subjectType "\x7b\x7d" confidence subjFresh ts).1
          predicate).all
        (fun r => r.objectId !=
          (ensureEntity (ensureEntity db subjectLabel subjectType "\x7b\x7d" confidence
            subjFresh ts).2 objectLabel objectType "\x7b\x7d" confidence objFresh ts).1) = true) :
      SupersedingRun (storeFact db subjectLabel predicate objectLabel subjectType
        objectType confidence properties subjFresh objFresh relId ts).2
  | deprecate (db : GraphDb) (relationId : String) (newConfidence : ℚ) (ts : Nat)
      (h : SupersedingRun db) :
      SupersedingRun (deprecateRelation db relationId newConfidence ts)
  | remove (db : GraphDb) (label : String) (h : SupersedingRun db) :
      SupersedingRun (removeEntity db label).2

theorem option_all_to_prop {o : Option RelationRow} {f : RelationRow → Bool}
    (h : o.all f = true) : ∀ r, o = some r → f r = true := by
  intro r hr
  rw [hr] at h
  simpa using h

/-- A list member's characters are an infix of the `joinSep` join. -/
theorem infix_of_mem_joinSep (sep s : String) :
    ∀ l : List String, s ∈ l → s.data <:+: (joinSep sep l).data := by
  intro l
  induction l with
  | nil => intro h; cases h
  | cons x xs ih =>
    intro hmem
    cases xs with
    | nil =>
      have hx : s = x := by simpa using hmem
      subst hx
      exact List.infix_refl _
    | cons y ys =>
      rcases List.mem_cons.mp hmem with rfl | hmem'
      · show s.data <:+: ((s ++ sep) ++ joinSep sep (y :: ys)).data
        rw [String.data_append, String.data_append, List.append_assoc]
        exact (List.prefix_append _ _).isInfix
      · refine (ih hmem').trans ?_
        show (joinSep sep (y :: ys)).data <:+: ((x ++ sep) ++ joinSep sep (y :: ys)).data
        rw [String.data_append]
        exact (List.suffix_append _ _).isInfix

theorem mem_insertBy {α : Type} (le : α → α → Bool) (x a : α) :
    ∀ l : List α, a ∈ insertBy le x l ↔ a = x ∨ a ∈ l := by
  intro l
  induction l with
  | nil => simp [insertBy]
  | cons y ys ih =>
    by_cases h : le y x
    · simp only [insertBy, if_pos h, List.mem_cons, ih]
      tauto
    · simp only [insertBy, if_neg h, List.mem_cons]

theorem mem_stableSortBy_aux {α : Type} (le : α → α → Bool) (a : α) :
    ∀ (l acc : List α), a ∈ l.foldl (fun acc x => insertBy le x acc) acc ↔
      a ∈ acc ∨ a ∈ l := by
  intro l
  induction l with
  | nil => intro acc; simp
  | cons x xs ih =>
    intro acc
    rw [List.foldl_cons, ih, mem_insertBy]
    simp only [List.mem_cons]
    tauto

/-- Membership is preserved by the stable sort. -/
theorem mem_stableSortBy {α : Type} (le : α → α → Bool) (a : α) (l : List α) :
    a ∈ stableSortBy le l ↔ a ∈ l := by
  unfold stableSortBy
  rw [mem_stableSortBy_aux]
  simp

/-! ## Claim C2 -/

/-- Claim C2, counterexample: storing the same fact twice (as `storeFact`
does with freshly minted relation ids) leaves TWO active relations for the
`(subject, predicate)` pair — the claimed replace-on-same-triple never
triggers because the DELETE is keyed on the fresh id. -/
theorem c2_counterexample :
    c2Db.relations.countP (isActiveFor "e1" "located_in") = 2 ∧ ¬ ActiveUniq c2Db :=
  ⟨by decide, fun h => absurd (h "e1" "located_in") (by decide)⟩

/-- Claim C2, amended: in every state reachable by `storeFact` /
`upsertRelation` / `deprecateRelation` / `removeEntity` in which every
relation write is a genuine supersession (the probed active relation for its
`(subject, predicate)`, when one exists, points at a different object), each
`(subject_id, predicate)` pair has at most one active relation. Storing a
fact whose `(subject, predicate, object)` already has an active relation adds
a second active row instead of replacing it (insert-or-replace applies to the
relation id only, and `storeFact` always mints a fresh id). -/
theorem c2_theorem {db : GraphDb} (h : SupersedingRun db) : ActiveUniq db := by
  induction h with
  | empty =>
    intro s p
    simp [List.countP_nil]
  | upsert db id subjectId predicate objectId properties confidence tStart tEnd srcSum ts h hobj ih =>
    intro s p
    exact countP_upsertRelation db id subjectId predicate objectId properties confidence
      tStart tEnd srcSum ts s p (ih s p) (ih subjectId predicate)
      (fun r hr => bne_iff_ne.mp (option_all_to_prop hobj r hr))
  | fact db subjectLabel predicate objectLabel subjectType objectType confidence properties subjFresh objFresh relId ts h hobj ih =>
    intro s p
    show List.countP (isActiveFor s p)
      ((upsertRelation
        (ensureEntity (ensureEntity db subjectLabel subjectType "\x7b\x7d" confidence
          subjFresh ts).2 objectLabel objectType "\x7b\x7d" confidence objFresh ts).2
        relId
        (ensureEntity db subjectLabel subjectType "\x7b\x7d" confidence subjFresh ts).1
        predicate
        (ensureEntity (ensureEntity db subjectLabel subjectType "\x7b\x7d" confidence
          subjFresh ts).2 objectLabel objectType "\x7b\x7d" confidence objFresh ts).1
        properties confidence none none none ts).relations) ≤ 1
    have hrels : ((ensureEntity (ensureEntity db subjectLabel subjectType "\x7b\x7d"
        confidence subjFresh ts).2 objectLabel objectType "\x7b\x7d" confidence
        objFresh ts).2).relations = db.relations :=
      (ensureEntity_relations ..).trans (ensureEntity_relations ..)
    apply countP_upsertRelation _ _ _ _ _ _ _ _ _ _ _ s p
    · rw [hrels]; exact ih s p
    · rw [hrels]; exact ih _ predicate
    · intro r hr
      rw [findActiveRelation_congr hrels] at hr
      exact bne_iff_ne.mp (option_all_to_prop hobj r hr)
  | deprecate db relationId newConfidence ts h ih =>
    intro s p
    refine le_trans (countP_active_map_le db.relations _ ?_ s p) (ih s p)
    intro r
    by_cases hid : r.id = relationId
    · right; simp [hid]
    · left; simp [hid]
  | remove db label h ih =>
    intro s p
    unfold removeEntity
    cases hfind : getEntityByLabel db label with
    | none => exact ih s p
    | some entity =>
      exact le_trans (countP_foldl_deleteRelation_le _ db s p) (ih s p)

/-- Claim C2, witness: the amended invariant evaluated on a concrete
two-supersession history. -/
theorem c2_witness : ActiveUniq c2WitnessDb :=
  c2_theorem
    (SupersedingRun.fact _ "User" "located_in" "London" "unknown" "unknown" 1
      "\x7b\x7d" "e3" "e4" "r2" 20
      (SupersedingRun.fact _ "User" "located_in" "Paris" "unknown" "unknown" 1
        "\x7b\x7d" "e1" "e2" "r1" 10 SupersedingRun.empty (by decide))
      (by decide))

/-! ## Claim C4 -/

/-- Claim C4: `removeEntity` on a matching label returns true and deletes the
entity row, but it collects the relations to delete through
`getRelationsBySubject`/`getRelationsByObject`, whose queries carry
`temporal_end IS NULL` — so only ACTIVE relations are deleted and the
superseded row `rOld` survives, contradicting both the claim and the
function's own doc comment ("Remove an entity and all its relations"). -/
theorem c4_theorem :
    (removeEntity c4Db "alpha").1 = true ∧
    ((removeEntity c4Db "alpha").2.relations.map (·.id)) = ["rOld"] ∧
    ((removeEntity c4Db "alpha").2.entities.map (·.id)) = ["eB"] ∧
    (removeEntity c4Db "beta-missing").1 = false ∧
    (removeEntity c4Db "beta-missing").2 = c4Db := by
  decide

/-! ## Claim C5 -/

/-- Claim C5: when the probed active relation for `(subject, predicate)`
points at a different object, `upsertRelation` marks that row ended at `now`
with its confidence halved, and inserts the new relation active (no
`temporal_end`, `temporal_start = now`) with the given confidence. -/
theorem c5_theorem (db : GraphDb) (id subjectId predicate objectId properties : String)
    (confidence : ℚ) (ts : Nat) (r : RelationRow)
    (hfind : findActiveRelation db subjectId predicate = some r)
    (hobj : r.objectId ≠ objectId)
    (hfresh : ∀ x ∈ db.relations, x.id ≠ id) :
    (∃ r' ∈ (upsertRelation db id subjectId predicate objectId properties confidence
        none none none ts).relations,
      r'.id = r.id ∧ r'.subjectId = r.subjectId ∧ r'.predicate = r.predicate ∧
      r'.objectId = r.objectId ∧ r'.temporalEnd = some ts ∧
      r'.confidence = r.confidence * (1/2)) ∧
    newRelationRow id subjectId predicate objectId properties confidence none none none ts ∈
      (upsertRelation db id subjectId predicate objectId properties confidence
        none none none ts).relations ∧
    (newRelationRow id subjectId predicate objectId properties confidence
      none none none ts).temporalEnd = none ∧
    (newRelationRow id subjectId predicate objectId properties confidence
      none none none ts).temporalStart = some ts ∧
    (newRelationRow id subjectId predicate objectId properties confidence
      none none none ts).confidence = confidence := by
  have hmem : r ∈ db.relations := List.mem_of_find?_eq_some hfind
  have hsup : supersedePass db subjectId predicate objectId ts =
      db.relations.map (endUpdate r.id ts) := by
    unfold supersedePass
    simp only [hfind]
    rw [if_pos hobj]
  refine ⟨⟨endUpdate r.id ts r, ?_, ?_⟩, ?_, rfl, rfl, rfl⟩
  · show endUpdate r.id ts r ∈
      (supersedePass db subjectId predicate objectId ts).filter (fun x => x.id ≠ id) ++
        [newRelationRow id subjectId predicate objectId properties confidence
          none none none ts]
    apply List.mem_append_left
    rw [hsup, List.mem_filter]
    refine ⟨List.mem_map.mpr ⟨r, hmem, rfl⟩, ?_⟩
    have hid : (endUpdate r.id ts r).id = r.id := by simp [endUpdate]
    simpa [hid] using hfresh r hmem
  · simp [endUpdate]
  · show newRelationRow id subjectId predicate objectId properties confidence
        none none none ts ∈
      (supersedePass db subjectId predicate objectId ts).filter (fun x => x.id ≠ id) ++
        [newRelationRow id subjectId predicate objectId properties confidence
          none none none ts]
    exact List.mem_append_right _ (List.mem_singleton.mpr rfl)

/-- Claim C5, witness: the supersession evaluated on a one-relation store. -/
theorem c5_witness :
    (∃ r' ∈ (upsertRelation c5Db "r2" "eU" "located_in" "eL" "\x7b\x7d" (9/10)
        none none none 50).relations,
      r'.id = c5Row.id ∧ r'.subjectId = c5Row.subjectId ∧ r'.predicate = c5Row.predicate ∧
      r'.objectId = c5Row.objectId ∧ r'.temporalEnd = some 50 ∧
      r'.confidence = c5Row.confidence * (1/2)) ∧
    newRelationRow "r2" "eU" "located_in" "eL" "\x7b\x7d" (9/10) none none none 50 ∈
      (upsertRelation c5Db "r2" "eU" "located_in" "eL" "\x7b\x7d" (9/10)
        none none none 50).relations ∧
    (newRelationRow "r2" "eU" "located_in" "eL" "\x7b\x7d" (9/10)
      none none none 50).temporalEnd = none ∧
    (newRelationRow "r2" "eU" "located_in" "eL" "\x7b\x7d" (9/10)
      none none none 50).temporalStart = some 50 ∧
    (newRelationRow "r2" "eU" "located_in" "eL" "\x7b\x7d" (9/10)
      none none none 50).confidence = 9/10 :=
  c5_theorem c5Db "r2" "eU" "located_in" "eL" "\x7b\x7d" (9/10) 50 c5Row
    (by decide) (by decide) (by decide)

/-! ## Claim C10 -/

/-- Claim C10: when `ensureEntity` finds an existing entity by
case-insensitive label and the incoming confidence strictly exceeds the
stored one, the resulting `upsertEntity` overwrites label, entity_type,
properties and confidence with the call's values and nulls
`source_summary_id` (the call site passes none), keeping only id and
created_at; when the incoming confidence is not strictly greater, the row is
left entirely unchanged. -/
theorem c10_theorem (db : GraphDb) (label entityType properties : String)
    (confidence : ℚ) (freshId : String) (ts : Nat) (e : EntityRow)
    (hfind : getEntityByLabel db label = some e) :
    (confidence > e.confidence →
      ensureEntity db label entityType properties confidence freshId ts =
        (e.id, { db with entities := db.entities.map (fun x =>
          if x.id = e.id then
            { x with label := label, entityType := entityType,
                     properties := properties, updatedAt := ts,
                     confidence := confidence, sourceSummaryId := none }
          else x) })) ∧
    (¬ confidence > e.confidence →
      ensureEntity db label entityType properties confidence freshId ts = (e.id, db)) := by
  have hmem : e ∈ db.entities := List.mem_of_find?_eq_some hfind
  constructor
  · intro hc
    unfold ensureEntity
    simp only [hfind]
    rw [if_pos hc]
    unfold upsertEntity
    cases hbyid : getEntityById db e.id with
    | none =>
      exact absurd (List.find?_eq_none.mp hbyid e hmem) (by simp)
    | some x => rfl
  · intro hc
    unfold ensureEntity
    simp only [hfind]
    rw [if_neg hc]

/-- Claim C10, witness: both branches evaluated on a one-entity store whose
`Paris` row has a non-trivial type, properties and origin. -/
theorem c10_witness :
    ensureEntity c10Db "paris" "unknown" "\x7b\x7d" (9/10) "fresh-1" 7 =
      ("eP", { c10Db with entities := c10Db.entities.map (fun x =>
        if x.id = "eP" then
          { x with label := "paris", entityType := "unknown",
                   properties := "\x7b\x7d", updatedAt := 7,
                   confidence := 9/10, sourceSummaryId := none }
        else x) }) ∧
    ensureEntity c10Db "paris" "unknown" "\x7b\x7d" (1/4) "fresh-1" 7 = ("eP", c10Db) :=
  ⟨(c10_theorem c10Db "paris" "unknown" "\x7b\x7d" (9/10) "fresh-1" 7 c10Row
      (by decide)).1 (by decide),
   (c10_theorem c10Db "paris" "unknown" "\x7b\x7d" (1/4) "fresh-1" 7 c10Row
      (by decide)).2 (by decide)⟩

/-! ## Claim C6 -/

/-- Claim C6, counterexample: an event's vector is keyed on the
working-entry id, yet the working-entry delete branch of `forgetMemory` only
splices the entry out of the buffer — the vector whose `source_id` is the
deleted id survives. -/
theorem c6_counterexample :
    c6Stored.1.memoryId = "uuid-0" ∧
    getSummaryById c6Stored.2 "uuid-0" = none ∧
    c6Forgot.2.working.filter (fun e => e.id == "uuid-0") = [] ∧
    c6Forgot.2.vectors.countP (fun v => v.sourceId == "uuid-0") = 1 := by
  decide

/-- Claim C6, amended: `forget(id, delete)` purges every vector with
`source_id = id` (and the summary row itself) when `id` names a summary row;
when no summary matches — in particular when `id` names a working entry —
the vector table is left untouched. -/
theorem c6_theorem (P : ExtParams) (st : MemState) (memoryId : String) (ts : Nat) :
    ((getSummaryById st memoryId).isSome →
      (∀ v ∈ (forgetMemory P st memoryId .delete none ts).2.vectors, v.sourceId ≠ memoryId) ∧
      (∀ s ∈ (forgetMemory P st memoryId .delete none ts).2.summaries, s.id ≠ memoryId)) ∧
    ((getSummaryById st memoryId) = none →
      (forgetMemory P st memoryId .delete none ts).2.vectors = st.vectors) := by
  constructor
  · intro hsome
    obtain ⟨summary, hs⟩ := Option.isSome_iff_exists.mp hsome
    unfold forgetMemory
    simp only [hs]
    constructor
    · intro v hv
      have := List.mem_filter.mp hv
      simpa using this.2
    · intro s hmem
      have := List.mem_filter.mp hmem
      simpa using this.2
  · intro hnone
    unfold forgetMemory
    simp only [hnone]
    cases hidx : st.working.findIdx? (fun e => e.id == memoryId) with
    | none => rfl
    | some idx => rfl

/-- Claim C6, witness: the amended purge evaluated on the C1 store (whose
Tier-1 summary has id `uuid-0` and a vector keyed on it). -/
theorem c6_witness :
    (∀ v ∈ (forgetMemory exParams c1State "uuid-0" .delete none 400).2.vectors,
      v.sourceId ≠ "uuid-0") ∧
    (∀ s ∈ (forgetMemory exParams c1State "uuid-0" .delete none 400).2.summaries,
      s.id ≠ "uuid-0") :=
  (c6_theorem exParams c1State "uuid-0" 400).1 (by decide)

/-! ## Claim C7 -/

/-- Claim C7, counterexample: a single event of 2700 tokens (under a
100-tokens-per-character tokenizer) overflows the default 2500 threshold,
but `checkTier0Overflow` compresses `floor(n/2)` entries — with one entry
that is zero entries, so no Tier-1 summary appears and the working total
stays at 2700 > 2500. -/
theorem c7_counterexample :
    workingTokens (sessionEntries c7Stored.2) = 2700 ∧
    ¬ workingTokens (sessionEntries c7Stored.2) ≤
        defaultConfig.tier0OverflowThreshold ∧
    c7Stored.2.summaries = [] := by
  decide

/-- Claim C7, amended: when an overflow is detected and the current session
holds at least two entries (`floor(n/2) ≥ 1`), exactly one new Tier-1 row is
appended, tagged with the current session, whose `source_ids` are exactly
the ids of the chronologically oldest `floor(n/2)` current-session entries,
and those entries are removed from the buffer; compression runs once, and
the surviving total need not fall below the threshold. -/
theorem c7_theorem (P : ExtParams) (cfg : Config) (st : MemState) (ts : Nat)
    (hover : cfg.tier0OverflowThreshold < workingTokens (sessionEntries st))
    (hhalf : 1 ≤ (sessionEntries st).length / 2) :
    (∃ row : SummaryRow,
      (checkTier0Overflow P cfg st ts).summaries = st.summaries ++ [row] ∧
      row.tier = 1 ∧ row.sessionId = st.currentSession ∧
      row.sourceIds =
        ((sessionEntries st).take ((sessionEntries st).length / 2)).map (·.id)) ∧
    (checkTier0Overflow P cfg st ts).working =
      st.working.filter (fun e =>
        e.id ∉ ((sessionEntries st).take ((sessionEntries st).length / 2)).map (·.id)) := by
  have htc : (sessionEntries st).take ((sessionEntries st).length / 2) ≠ [] := by
    have hlen : ((sessionEntries st).take ((sessionEntries st).length / 2)).length =
        (sessionEntries st).length / 2 := by
      rw [List.length_take]
      exact Nat.min_eq_left (Nat.div_le_self _ _)
    intro hnil
    rw [hnil] at hlen
    simp at hlen
    omega
  unfold checkTier0Overflow
  rw [if_neg (not_le.mpr hover), if_neg htc]
  exact ⟨⟨_, rfl, rfl, rfl, rfl⟩, rfl⟩

/-- Claim C7, witness: the amended compression evaluated on a two-entry
session whose total (2600 tokens) exceeds the threshold. -/
theorem c7_witness :
    (∃ row : SummaryRow,
      (checkTier0Overflow c7Params defaultConfig c7WitnessState 9).summaries =
        c7WitnessState.summaries ++ [row] ∧
      row.tier = 1 ∧ row.sessionId = c7WitnessState.currentSession ∧
      row.sourceIds =
        ((sessionEntries c7WitnessState).take
          ((sessionEntries c7WitnessState).length / 2)).map (·.id)) ∧
    (checkTier0Overflow c7Params defaultConfig c7WitnessState 9).working =
      c7WitnessState.working.filter (fun e =>
        e.id ∉ ((sessionEntries c7WitnessState).take
          ((sessionEntries c7WitnessState).length / 2)).map (·.id)) :=
  c7_theorem c7Params defaultConfig c7WitnessState 9 (by decide) (by decide)

/-! ## Claim C9 -/

/-- Claim C9: content with fewer than 10 whitespace-separated words is
rejected before `storeMemory` runs — the reply is an error whose text starts
with REJECTED and embeds the first 80 characters of the submitted content,
and the engine state (summaries, working buffer, graph, vectors) is exactly
the input state; content with at least 10 words is accepted, and when it has
fewer than 25 words the reply carries the brevity-warning annotation. -/
theorem c9_theorem (P : ExtParams) (cfg : Config) (st : MemState) (content : String)
    (memoryType : MemoryType) (confidence : ℚ) (entities : List String) (ts : Nat)
    (hne : content ≠ "") :
    (jsWordCount content < 10 →
      (memoryStoreHandler P cfg st content memoryType confidence entities ts).1.isError = true ∧
      "REJECTED".data <+:
        (memoryStoreHandler P cfg st content memoryType confidence entities ts).1.text.data ∧
      (content.take 80).data <:+:
        (memoryStoreHandler P cfg st content memoryType confidence entities ts).1.text.data ∧
      (memoryStoreHandler P cfg st content memoryType confidence entities ts).2 = st) ∧
    (10 ≤ jsWordCount content →
      (memoryStoreHandler P cfg st content memoryType confidence entities ts).1.isError = false ∧
      (jsWordCount content < 25 →
        brevityWarning.data <:+:
          (memoryStoreHandler P cfg st content memoryType confidence entities ts).1.text.data)) := by
  constructor
  · intro h10
    have heq : memoryStoreHandler P cfg st content memoryType confidence entities ts =
        ({ text := rejectionHead (jsWordCount content) ++ content.take 80 ++ rejectionTail,
           isError := true }, st) := by
      unfold memoryStoreHandler
      simp only [if_neg hne, if_pos h10]
    rw [heq]
    refine ⟨rfl, ?_, ?_, rfl⟩
    · show "REJECTED".data <+:
        (rejectionHead (jsWordCount content) ++ content.take 80 ++ rejectionTail).data
      simp only [rejectionHead, String.data_append, List.append_assoc]
      exact List.prefix_append _ _
    · show (content.take 80).data <:+:
        (rejectionHead (jsWordCount content) ++ content.take 80 ++ rejectionTail).data
      refine ⟨(rejectionHead (jsWordCount content)).data, rejectionTail.data, ?_⟩
      simp [String.data_append]
  · intro h10
    have h10n : ¬ jsWordCount content < 10 := not_lt.mpr h10
    constructor
    · simp only [memoryStoreHandler, if_neg hne, if_neg h10n]
    · intro h25
      simp only [memoryStoreHandler, if_neg hne, if_neg h10n, if_pos h25]
      apply infix_of_mem_joinSep
      apply List.mem_filterMap.mpr
      refine ⟨some brevityWarning, ?_, rfl⟩
      have hbw : brevityWarning ≠ "" := by decide
      simp [if_pos hbw]

/-- Claim C9, witness: the rejection evaluated on a 2-word entry and the
warned acceptance evaluated on a 10-word entry. -/
theorem c9_witness :
    ((memoryStoreHandler exParams defaultConfig initState "too short" .event 1 [] 5).1.isError = true ∧
     "REJECTED".data <+:
       (memoryStoreHandler exParams defaultConfig initState "too short" .event 1 [] 5).1.text.data ∧
     ("too short".take 80).data <:+:
       (memoryStoreHandler exParams defaultConfig initState "too short" .event 1 [] 5).1.text.data ∧
     (memoryStoreHandler exParams defaultConfig initState "too short" .event 1 [] 5).2 = initState) ∧
    ((memoryStoreHandler exParams defaultConfig initState c3Content .event 1 [] 5).1.isError = false ∧
     brevityWarning.data <:+:
       (memoryStoreHandler exParams defaultConfig initState c3Content .event 1 [] 5).1.text.data) :=
  ⟨(c9_theorem exParams defaultConfig initState "too short" .event 1 [] 5
      (by decide)).1 (by decide),
   ((c9_theorem exParams defaultConfig initState c3Content .event 1 [] 5
      (by decide)).2 (by decide)).1,
   ((c9_theorem exParams defaultConfig initState c3Content .event 1 [] 5
      (by decide)).2 (by decide)).2 (by decide)⟩

/-! ## Claim C3 -/

theorem budgetFill_nonneg (cands : List ContextCandidate) (r : ℤ) (h : 0 ≤ r) :
    0 ≤ (budgetFill cands r).2 := by
  induction cands generalizing r with
  | nil => simpa [budgetFill] using h
  | cons c cs ih =>
    by_cases hc : (c.tokens : ℤ) ≤ r
    · simp only [budgetFill, if_pos hc]
      exact ih _ (by omega)
    · simp only [budgetFill, if_neg hc]
      exact ih r h

/-- Claim C3, counterexample: with an 11-token budget a 10-token working
candidate is selected (`budgetUsed = 10 ≤ 11`), but the formatted text
prepends the section label, so even after discounting the footer line the
returned `totalTokens` exceeds the budget: 22 total, 10 of them the footer,
leaving 12 > 11 (the 12 words of `"[Current Session] " ++ content`). -/
theorem c3_counterexample :
    c3Run.budgetUsed = 10 ∧
    c3Run.totalTokens = 22 ∧
    wcTok c3Footer = 10 ∧
    (∃ pre, c3Run.text = pre ++ "\n\n" ++ c3Footer ∧ wcTok pre = 12) ∧
    ¬ (c3Run.totalTokens - wcTok c3Footer ≤ 11) :=
  ⟨by decide, by decide, by decide,
   ⟨"[Current Session] " ++ c3Content, by decide, by decide⟩, by decide⟩

/-- Claim C3, amended: the greedy fill itself never overdraws — whenever the
budget left after the up-front core-section charge is non-negative (in
particular whenever there is no core memory, or the truncated core section
fits), the final remaining budget stays non-negative and `budgetUsed` (the
core charge plus the sum of the selected candidates' own token counts, as
counted by the selection tokenizer) is at most the budget. The formatted
text adds section labels, separators and the footer on top of that, so
`totalTokens` can exceed the budget. -/
theorem c3_theorem (P : ExtParams) (cfg : Config) (st : MemState) (query : String)
    (tokenBudget : Option Nat) (filters : Option VectorSearchFilter) (ts : Nat)
    (h : 0 ≤ initialRemaining P cfg st tokenBudget) :
    (assembleContext P cfg st query tokenBudget filters ts).1.budgetUsed ≤
      (resolveBudget cfg tokenBudget : ℤ) ∧
    0 ≤ (assembleContext P cfg st query tokenBudget filters ts).1.budgetRemaining := by
  have hfill := budgetFill_nonneg (sortedDeduped P cfg st query filters ts)
    (initialRemaining P cfg st tokenBudget) h
  constructor
  · show (resolveBudget cfg tokenBudget : ℤ) -
      (budgetFill (sortedDeduped P cfg st query filters ts)
        (initialRemaining P cfg st tokenBudget)).2 ≤ (resolveBudget cfg tokenBudget : ℤ)
    omega
  · exact hfill

/-- Claim C3, witness: the amended bound evaluated on the C1 end state with
the default budget. -/
theorem c3_witness :
    (assembleContext exParams defaultConfig c1State "alpha build" none none 300).1.budgetUsed ≤
      (resolveBudget defaultConfig none : ℤ) ∧
    0 ≤ (assembleContext exParams defaultConfig c1State "alpha build" none none 300).1.budgetRemaining :=
  c3_theorem exParams defaultConfig c1State "alpha build" none none 300 (by decide)

/-! ## Claim C1 -/

/-- Where an assembled candidate can come from: its `source` tag is one of
the six stage literals, a `working` candidate exists only when the session's
working memory is non-empty, and a `current_session` candidate always names a
Tier-1 summary tagged with the current session. -/
theorem gatherCandidates_mem (P : ExtParams) (st : MemState) (query : String)
    (filters : Option VectorSearchFilter) (ts : Nat) (c : ContextCandidate)
    (hc : c ∈ (gatherCandidates P st query filters ts).1) :
    (c.source = "working" ∧ getWorkingMemory st ≠ "") ∨
    c.source = "vector" ∨ c.source = "graph" ∨
    (c.source = "current_session" ∧ ∃ sid, st.currentSession = some sid ∧
      ∃ s ∈ st.summaries, s.id = c.id ∧ s.tier = 1 ∧ s.sessionId = some sid) ∨
    c.source = "past_sessions" ∨ c.source = "long_term" := by
  simp only [gatherCandidates, List.mem_append] at hc
  rcases hc with ((((hA | hB) | hC) | hD) | hE) | hF
  · by_cases hw : (getWorkingMemory st).length > 0
    · rw [if_pos hw] at hA
      have : c = _ := List.mem_singleton.mp hA
      subst this
      refine Or.inl ⟨rfl, fun hemp => ?_⟩
      rw [hemp] at hw
      simp at hw
    · rw [if_neg hw] at hA
      cases hA
  · rcases List.mem_filterMap.mp hB with ⟨vr, -, hf⟩
    by_cases hs : vr.similarity < 0.3
    · rw [if_pos hs] at hf
      cases hf
    · rw [if_neg hs] at hf
      obtain rfl := (Option.some.inj hf).symm
      exact Or.inr (Or.inl rfl)
  · by_cases hg : (((extractEntityMentions P query).take 5).filterMap
        (fun m => queryEntity st.graph m 2)).length > 0
    · rw [if_pos hg] at hC
      have : c = _ := List.mem_singleton.mp hC
      subst this
      exact Or.inr (Or.inr (Or.inl rfl))
    · rw [if_neg hg] at hC
      cases hC
  · cases hsid : st.currentSession with
    | none =>
      simp only [hsid] at hD
      cases hD
    | some sid =>
      simp only [hsid] at hD
      rcases List.mem_map.mp hD with ⟨s, hs, rfl⟩
      have hs1 : s ∈ getSummariesByTierAndSession st 1 sid := List.mem_of_mem_take hs
      have hs2 : s ∈ st.summaries.filter
          (fun x => x.tier == 1 && x.sessionId == some sid) := by
        have := (mem_stableSortBy _ s _).mp hs1
        exact this
      have hs3 := List.mem_filter.mp hs2
      have hs4 := hs3.2
      simp only [Bool.and_eq_true, beq_iff_eq] at hs4
      exact Or.inr (Or.inr (Or.inr (Or.inl ⟨rfl, sid, rfl, s, hs3.1, rfl, hs4.1, hs4.2⟩)))
  · rcases List.mem_map.mp hE with ⟨s, -, rfl⟩
    exact Or.inr (Or.inr (Or.inr (Or.inr (Or.inl rfl))))
  · rcases List.mem_map.mp hF with ⟨s, -, rfl⟩
    exact Or.inr (Or.inr (Or.inr (Or.inr (Or.inr rfl))))

/-- Claim C1, counterexample: a summary-kind note stored in session 1 is
returned verbatim by a retrieve issued in session 2 — `assembleContext` pulls
past-session Tier-1 summaries (and vectors, graph, Tier-2), so the new
session's retrieval is not limited to session-tagged data and returns a
non-zero number of tokens (10) from the pre-session_start entry. -/
theorem c1_counterexample :
    c1Run.candidatesSelected = 1 ∧
    c1Run.sourceCounts = [("past_sessions", 1)] ∧
    c1Run.budgetUsed = 10 ∧
    (∃ pre post, c1Run.text = pre ++ c1Content ++ post) :=
  ⟨by decide, by decide, by decide,
   ⟨"[Past Sessions] ",
    "\n\n--- Session: sess-bbb | Sources: past_sessions:1 | Tokens: 10/3000 ---",
    by decide⟩⟩

/-- Claim C1, amended: `session_start` clears the whole working buffer, so a
retrieve in the new session draws no `working` candidate at all (hence zero
tokens of any previous session's Tier-0 entries through that source), and
every `current_session` candidate names a Tier-1 summary tagged with the new
session; but the assembler also draws `vector`, `graph`, `past_sessions` and
`long_term` candidates, which can carry content stored before the
`session_start`. -/
theorem c1_amended (P : ExtParams) (cfg : Config) (st : MemState) (newSid : String)
    (ts : Nat) (query : String) (filters : Option VectorSearchFilter) (ts2 : Nat) :
    (sessionStartHandler P cfg st newSid ts).working = [] ∧
    (sessionStartHandler P cfg st newSid ts).currentSession = some newSid ∧
    (∀ c ∈ (gatherCandidates P (sessionStartHandler P cfg st newSid ts) query filters ts2).1,
      c.source ≠ "working" ∧
      (c.source = "current_session" →
        ∃ s ∈ (sessionStartHandler P cfg st newSid ts).summaries,
          s.id = c.id ∧ s.tier = 1 ∧ s.sessionId = some newSid)) := by
  refine ⟨rfl, rfl, ?_⟩
  intro c hc
  have hwork : getWorkingMemory (sessionStartHandler P cfg st newSid ts) = "" := rfl
  rcases gatherCandidates_mem P _ query filters ts2 c hc with
    ⟨-, hne⟩ | hs | hs | ⟨hs, sid, hsid, s, hmem, hid, htier, hsess⟩ | hs | hs
  · exact absurd hwork hne
  · exact ⟨by rw [hs]; decide, fun h => absurd (hs.symm.trans h) (by decide)⟩
  · exact ⟨by rw [hs]; decide, fun h => absurd (hs.symm.trans h) (by decide)⟩
  · have hsome : some newSid = some sid := hsid
    have hsid' : sid = newSid := (Option.some.inj hsome).symm
    subst hsid'
    exact ⟨by rw [hs]; decide, fun _ => ⟨s, hmem, hid, htier, hsess⟩⟩
  · exact ⟨by rw [hs]; decide, fun h => absurd (hs.symm.trans h) (by decide)⟩
  · exact ⟨by rw [hs]; decide, fun h => absurd (hs.symm.trans h) (by decide)⟩

/-! ## Claim C8 -/

/-- Claim C8, counterexample: with near-duplicates A≈B and X≈B (Jaccard
20/23 ≥ 0.85) but A≉X (20/26 < 0.85) and B arriving last with the top score,
one pass keeps [A, X], replaces A by B in place without re-checking B
against X, and returns [B, X] — a surviving near-duplicate pair; a second
pass collapses it to [B], so deduplication is not idempotent. -/
theorem c8_counterexample :
    deduplicate (deduplicate c8Cands (0.85 : ℚ)) 0.85 ≠ deduplicate c8Cands 0.85 := by
  decide

theorem dedup_pairwise_fixed (threshold : ℚ) :
    ∀ cs acc : List ContextCandidate,
      (∀ c ∈ cs, ∀ e ∈ acc, textSimilarity c.content e.content < threshold) →
      List.Pairwise (fun a b => textSimilarity b.content a.content < threshold) cs →
      cs.foldl (dedupInsert threshold) acc = acc ++ cs := by
  intro cs
  induction cs with
  | nil => intro acc _ _; simp
  | cons c cs ih =>
    intro acc hacc hpw
    rw [List.foldl_cons]
    have hstep : dedupInsert threshold acc c = acc ++ [c] := by
      unfold dedupInsert
      have hidx : acc.findIdx?
          (fun e => decide (threshold ≤ textSimilarity c.content e.content)) = none := by
        rw [List.findIdx?_eq_none_iff]
        intro e he
        simpa using not_le.mpr (hacc c (List.mem_cons_self c cs) e he)
      rw [hidx]
    rw [hstep]
    have hrec := ih (acc ++ [c]) ?_ (List.Pairwise.of_cons hpw)
    · rw [hrec, List.append_assoc]
      rfl
    · intro c' hc' e he
      rcases List.mem_append.mp he with he' | he'
      · exact hacc c' (List.mem_cons_of_mem _ hc') e he'
      · obtain rfl := List.mem_singleton.mp he'
        exact (List.pairwise_cons.mp hpw).1 c' hc'

/-- Claim C8, amended: on a candidate list whose members are pairwise below
the threshold, the deduplication pass is the identity — so a second pass
agrees with the first. In general it is not idempotent: the in-place
replacement of a kept candidate by a higher-scored near-duplicate is never
re-checked against the other kept candidates, so one pass can output a pair
at or above the threshold (and not exactly one of a near-duplicate pair
survives), which a second pass then collapses. -/
theorem c8_theorem (threshold : ℚ) (cs : List ContextCandidate)
    (hpw : List.Pairwise (fun a b => textSimilarity b.content a.content < threshold) cs) :
    deduplicate cs threshold = cs ∧
    deduplicate (deduplicate cs threshold) threshold = deduplicate cs threshold := by
  have h1 : deduplicate cs threshold = cs := by
    unfold deduplicate
    simpa using dedup_pairwise_fixed threshold cs [] (by simp) hpw
  exact ⟨h1, by rw [h1, h1]⟩

/-- Claim C8, witness: the amended idempotence evaluated on a dissimilar
two-candidate list. -/
theorem c8_witness :
    deduplicate c8Apart (0.85 : ℚ) = c8Apart ∧
    deduplicate (deduplicate c8Apart (0.85 : ℚ)) 0.85 = deduplicate c8Apart 0.85 :=
  c8_theorem 0.85 c8Apart (by decide)

end LatentContext
